import Mathlib

/- Verification of the Realtek rtl8365mb switch control-plane driver
   (drivers/net/dsa/realtek): register transports, the look-up table
   query engine, and the table entry codecs.

   The driver code is embedded shallowly: C functions become Lean
   functions, the chip is modelled as an explicit state record, machine
   integers are Nat with masking where the C code masks.  The Linux
   bitfield helpers FIELD_PREP and FIELD_GET are reproduced below. -/

set_option maxHeartbeats 1000000
set_option linter.unusedVariables false

/-- Trailing-zero count of a mask, with structural fuel so that it reduces
definitionally.  Mirrors the low-bit-position computation done by the
kernel macro that underlies FIELD_PREP and FIELD_GET. -/
def bfShfAux : Nat → Nat → Nat
  | 0, _ => 0
  | fuel + 1, m => if m % 2 = 1 ∨ m = 0 then 0 else bfShfAux fuel (m / 2) + 1

/-- Number of the least significant set bit of a mask (the shift used by
the kernel FIELD_PREP / FIELD_GET macros).  All masks in this driver fit
in 32 bits, so fuel 32 is enough. -/
def bfShf (m : Nat) : Nat := bfShfAux 32 m

/-- Linux FIELD_PREP: shift a value into the field described by the mask. -/
def FIELD_PREP (mask v : Nat) : Nat := (v <<< bfShf mask) &&& mask

/-- Linux FIELD_GET: extract the field described by the mask from a word. -/
def FIELD_GET (mask w : Nat) : Nat := (w &&& mask) >>> bfShf mask

/- Error numbers used by the driver (returned negated, as in the kernel). -/

def ENOENT : Int := 2
def E2BIG : Int := 7
def EINVAL : Int := 22
def ENOSPC : Int := 28
def ETIMEDOUT : Int := 110

/- Bit manipulation toolkit used by the codec proofs. -/

theorem shiftLeft_and_shiftLeft (a b s : Nat) :
    (a <<< s) &&& (b <<< s) = (a &&& b) <<< s := by
  apply Nat.eq_of_testBit_eq
  intro i
  simp only [Nat.testBit_and, Nat.testBit_shiftLeft]
  by_cases h : s ≤ i <;> simp [h]

theorem shiftLeft_shiftRight_cancel (a s : Nat) : (a <<< s) >>> s = a := by
  rw [Nat.shiftLeft_eq, Nat.shiftRight_eq_div_pow]
  exact Nat.mul_div_cancel a (Nat.pos_pow_of_pos s (by omega))

theorem shiftRight_lor (a b s : Nat) : (a ||| b) >>> s = (a >>> s) ||| (b >>> s) := by
  apply Nat.eq_of_testBit_eq
  intro i
  simp [Nat.testBit_or, Nat.testBit_shiftRight]

theorem shiftRight_land (a b s : Nat) : (a &&& b) >>> s = (a >>> s) &&& (b >>> s) := by
  apply Nat.eq_of_testBit_eq
  intro i
  simp [Nat.testBit_and, Nat.testBit_shiftRight]

theorem land_land_self (a m : Nat) : (a &&& m) &&& m = a &&& m := by
  rw [Nat.and_assoc, Nat.and_self]

theorem FIELD_GET_lor (M a b : Nat) :
    FIELD_GET M (a ||| b) = FIELD_GET M a ||| FIELD_GET M b := by
  unfold FIELD_GET
  rw [Nat.and_distrib_right, shiftRight_lor]

theorem FIELD_GET_land (M a b : Nat) :
    FIELD_GET M (a &&& b) = FIELD_GET M a &&& FIELD_GET M b := by
  unfold FIELD_GET
  have h : (a &&& b) &&& M = (a &&& M) &&& (b &&& M) := by
    apply Nat.eq_of_testBit_eq
    intro i
    simp only [Nat.testBit_and]
    cases a.testBit i <;> cases b.testBit i <;> cases M.testBit i <;> rfl
  rw [h, shiftRight_land]

theorem FIELD_GET_PREP_self (M w s v : Nat) (hM : M = (2 ^ w - 1) <<< s)
    (hs : bfShf M = s) : FIELD_GET M (FIELD_PREP M v) = v % 2 ^ w := by
  unfold FIELD_GET FIELD_PREP
  rw [hs, land_land_self, hM, shiftLeft_and_shiftLeft, shiftLeft_shiftRight_cancel,
    Nat.and_pow_two_sub_one_eq_mod]

theorem FIELD_GET_PREP_disjoint (M1 M2 v : Nat) (h : M2 &&& M1 = 0) :
    FIELD_GET M1 (FIELD_PREP M2 v) = 0 := by
  unfold FIELD_GET FIELD_PREP
  rw [Nat.and_assoc, h, Nat.and_zero, Nat.zero_shiftRight]

theorem FIELD_GET_zero (M : Nat) : FIELD_GET M 0 = 0 := by
  unfold FIELD_GET
  rw [Nat.zero_and, Nat.zero_shiftRight]

/-- Recombining a value split at bit position s loses nothing. -/
theorem mod_lor_shiftRight_shiftLeft (x s : Nat) :
    (x % 2 ^ s) ||| ((x >>> s) <<< s) = x := by
  apply Nat.eq_of_testBit_eq
  intro i
  simp only [Nat.testBit_or, Nat.testBit_mod_two_pow, Nat.testBit_shiftLeft,
    Nat.testBit_shiftRight]
  by_cases h : i < s
  · simp [h, Nat.not_le_of_lt h]
  · have hs : s ≤ i := Nat.le_of_not_lt h
    simp [h, hs, Nat.add_sub_cancel' hs]

theorem shiftRight_lt_of_lt (x s k : Nat) (h : x < 2 ^ (s + k)) : x >>> s < 2 ^ k := by
  rw [Nat.shiftRight_eq_div_pow]
  rw [Nat.pow_add] at h
  exact Nat.div_lt_of_lt_mul h

/-- The care/data transform of the ACL rule codec is invertible by XOR:
for 16-bit words c and d, (c AND NOT d) XOR (c AND d) recovers c.
The complement is the 16-bit complement the C code computes on u16. -/
theorem care_data_xor_recover (c d : Nat) (hc : c < 2 ^ 16) (hd : d < 2 ^ 16) :
    (c &&& (0xFFFF ^^^ d)) ^^^ (c &&& d) = c := by
  have h16 : (0xFFFF : Nat) = 2 ^ 16 - 1 := by norm_num
  apply Nat.eq_of_testBit_eq
  intro i
  simp only [Nat.testBit_xor, Nat.testBit_and, h16, Nat.testBit_two_pow_sub_one]
  by_cases h : i < 16
  · simp only [h, decide_True]
    cases c.testBit i <;> cases d.testBit i <;> rfl
  · have hci : c.testBit i = false :=
      Nat.testBit_lt_two_pow (Nat.lt_of_lt_of_le hc (Nat.pow_le_pow_right (by omega) (by omega)))
    have hdi : d.testBit i = false :=
      Nat.testBit_lt_two_pow (Nat.lt_of_lt_of_le hd (Nat.pow_le_pow_right (by omega) (by omega)))
    simp [h, hci, hdi]

/- 4.2 Indirect-address (MDIO) transport, from realtek-mdio.c.

   The parent MDIO bus is modelled as an oracle giving the result of the
   n-th primitive bus write in a handshake, plus the result of the final
   bus read (which returns either the register value or a negative error
   number, as in the kernel mii_bus contract). -/

def MDC_MDIO_CTRL0_REG : Nat := 31
def MDC_MDIO_START_REG : Nat := 29
def MDC_MDIO_CTRL1_REG : Nat := 21
def MDC_MDIO_ADDRESS_REG : Nat := 23
def MDC_MDIO_DATA_WRITE_REG : Nat := 24
def MDC_MDIO_DATA_READ_REG : Nat := 25
def MDC_MDIO_START_OP : Nat := 0xFFFF
def MDC_MDIO_ADDR_OP : Nat := 0x000E
def MDC_MDIO_READ_OP : Nat := 0x0001
def MDC_MDIO_WRITE_OP : Nat := 0x0003

structure mii_bus where
  /-- Result of the n-th primitive write performed during one register
  access (0 on success, a negative errno on failure). -/
  writeRes : Nat → Int
  /-- Result of the primitive read: the register value, or a negative
  errno on failure. -/
  readRes : Int

/-- The sequence of (reg, value) primitive writes issued by
realtek_mdio_read_reg: Start, address-control mode, Start, target
address, Start, read command, Start. -/
def realtek_mdio_read_ops (addr : Nat) : List (Nat × Nat) :=
  [(MDC_MDIO_START_REG, MDC_MDIO_START_OP),
   (MDC_MDIO_CTRL0_REG, MDC_MDIO_ADDR_OP),
   (MDC_MDIO_START_REG, MDC_MDIO_START_OP),
   (MDC_MDIO_ADDRESS_REG, addr),
   (MDC_MDIO_START_REG, MDC_MDIO_START_OP),
   (MDC_MDIO_CTRL1_REG, MDC_MDIO_READ_OP),
   (MDC_MDIO_START_REG, MDC_MDIO_START_OP)]

/-- The sequence of (reg, value) primitive writes issued by
realtek_mdio_write_reg: Start, address-control mode, Start, target
address, Start, data, Start, write command. -/
def realtek_mdio_write_ops (addr data : Nat) : List (Nat × Nat) :=
  [(MDC_MDIO_START_REG, MDC_MDIO_START_OP),
   (MDC_MDIO_CTRL0_REG, MDC_MDIO_ADDR_OP),
   (MDC_MDIO_START_REG, MDC_MDIO_START_OP),
   (MDC_MDIO_ADDRESS_REG, addr),
   (MDC_MDIO_START_REG, MDC_MDIO_START_OP),
   (MDC_MDIO_DATA_WRITE_REG, data),
   (MDC_MDIO_START_REG, MDC_MDIO_START_OP),
   (MDC_MDIO_CTRL1_REG, MDC_MDIO_WRITE_OP)]

/-- realtek_mdio_read_reg: performs the seven-write handshake and the
final data read.  The source discards the return value of every
bus->write call and stores the (possibly negative) bus->read result
into the u32 output; it always returns 0.  The returned triple is
(return value, *data after the u32 conversion, ops issued). -/
def realtek_mdio_read_reg (bus : mii_bus) (addr : Nat) :
    Int × Nat × List (Nat × Nat) :=
  let ops := realtek_mdio_read_ops addr
  let data := (bus.readRes % (2 ^ 32 : Int)).toNat
  (0, data, ops)

/-- realtek_mdio_write_reg: performs the eight-write handshake.  The
source discards the return value of every bus->write call and always
returns 0.  The returned pair is (return value, ops issued). -/
def realtek_mdio_write_reg (bus : mii_bus) (addr data : Nat) :
    Int × List (Nat × Nat) :=
  let ops := realtek_mdio_write_ops addr data
  (0, ops)

/-- An MDIO bus on which the very first primitive write fails with -EIO
(-5) and the primitive read also fails with -5. -/
def mdioBusAllFail : mii_bus := { writeRes := fun _ => -5, readRes := -5 }

/-- Claim C2 is false on this code: with a bus whose first primitive
write fails with error -5, realtek_mdio_write_reg and
realtek_mdio_read_reg still return 0 (success) instead of propagating
the error of the first failing primitive. -/
theorem c2_mdio_error_propagation_refuted :
    ¬ (∀ (bus : mii_bus) (addr data : Nat),
        (bus.writeRes 0 ≠ 0 →
          (realtek_mdio_write_reg bus addr data).1 = bus.writeRes 0 ∧
          (realtek_mdio_read_reg bus addr).1 = bus.writeRes 0)) := by
  intro h
  have h5 : (mdioBusAllFail.writeRes 0) ≠ 0 := by decide
  have := (h mdioBusAllFail 0 0 h5).1
  simp [realtek_mdio_write_reg, mdioBusAllFail] at this

/-- Claim C2 (amended): the indirect-address transport performs the
fixed handshake but ignores the results of all underlying bus
primitives: register_read and register_write always return 0, whatever
the bus reports, and perform no retry (each primitive of the handshake
is issued exactly once). -/
theorem c2_mdio_always_returns_zero (bus : mii_bus) (addr data : Nat) :
    (realtek_mdio_write_reg bus addr data).1 = 0 ∧
    (realtek_mdio_read_reg bus addr).1 = 0 ∧
    (realtek_mdio_write_reg bus addr data).2 = realtek_mdio_write_ops addr data ∧
    (realtek_mdio_read_reg bus addr).2.2 = realtek_mdio_read_ops addr := by
  refine ⟨rfl, rfl, rfl, rfl⟩

/- 4.1 Bit-bang (SMI) transport ACK wait, from realtek-smi.c.

   The transport is modelled by an oracle giving the acknowledgement bit
   returned by the n-th single-bit read.  The C loop is

     retry_cnt = 0;
     do {
       read ack bit;
       if (ack == 0) break;
       if (++retry_cnt > REALTEK_SMI_ACK_RETRY_COUNT) return -ETIMEDOUT;
     } while (1);

   which performs at most REALTEK_SMI_ACK_RETRY_COUNT + 1 reads.  It is
   embedded below with the loop variable transformed into the
   structurally decreasing fuel REALTEK_SMI_ACK_RETRY_COUNT + 1 -
   retry_cnt; the pair returned is (return value, number of ack polls
   performed). -/

def REALTEK_SMI_ACK_RETRY_COUNT : Nat := 5

def realtek_smi_wait_for_ack_go (ack : Nat → Nat) : Nat → Nat → Int × Nat
  | polls, 0 => (-ETIMEDOUT, polls)
  | polls, fuel + 1 =>
    if ack polls = 0 then (0, polls + 1)
    else realtek_smi_wait_for_ack_go ack (polls + 1) fuel

/-- realtek_smi_wait_for_ack: poll the acknowledgement bit until it
reads 0, retrying up to REALTEK_SMI_ACK_RETRY_COUNT times after the
initial poll, and fail with -ETIMEDOUT when the bound is exceeded. -/
def realtek_smi_wait_for_ack (ack : Nat → Nat) : Int × Nat :=
  realtek_smi_wait_for_ack_go ack 0 (REALTEK_SMI_ACK_RETRY_COUNT + 1)

/-- Claim C3 is false as stated: on a transport that never asserts the
acknowledgement (every poll reads 1), the wait returns the timeout
error only after 6 failed acknowledgement polls, not 5. -/
theorem c3_ack_five_polls_refuted :
    realtek_smi_wait_for_ack (fun _ => 1) = (-ETIMEDOUT, 6) ∧ (6 : Nat) ≠ 5 := by
  exact ⟨rfl, by decide⟩

/-- Claim C3 (amended): given a transport on which the acknowledgement
bit read always returns non-zero, the bit-bang ACK wait terminates and
returns the timeout error -ETIMEDOUT, after exactly 6 failed
acknowledgement polls (the initial poll plus REALTEK_SMI_ACK_RETRY_COUNT
= 5 retries). -/
theorem c3_ack_timeout_after_six_polls (ack : Nat → Nat)
    (h : ∀ n, ack n ≠ 0) :
    realtek_smi_wait_for_ack ack = (-ETIMEDOUT, 6) := by
  unfold realtek_smi_wait_for_ack REALTEK_SMI_ACK_RETRY_COUNT
  simp [realtek_smi_wait_for_ack_go, h]

/-- Witness for c3_ack_timeout_after_six_polls at the constantly-1 ack
oracle. -/
theorem c3_ack_timeout_after_six_polls_witness :
    realtek_smi_wait_for_ack (fun _ => 1) = (-ETIMEDOUT, 6) :=
  c3_ack_timeout_after_six_polls (fun _ => 1) (fun _ => Nat.one_ne_zero)

/- 4.4 Table query engine, from rtl8365mb_table.c.

   The chip is modelled as an explicit state: the indexed tables that
   the write window commits into, the plain register file, and the
   hardware's response to a forwarding-database (L2) command (status
   word and read-window contents).  The chip-side storage semantics
   (a write command commits the write window to the addressed slot, a
   read command loads the slot into the read window) is the documented
   access model of the hardware; the driver-side choreography below is
   translated from rtl8365mb_table_query. -/

def RTL8365MB_TABLE_ACL_RULE : Nat := 1
def RTL8365MB_TABLE_ACL_ACTION : Nat := 2
def RTL8365MB_TABLE_CVLAN : Nat := 3
def RTL8365MB_TABLE_L2 : Nat := 4

def RTL8365MB_TABLE_OP_READ : Nat := 0
def RTL8365MB_TABLE_OP_WRITE : Nat := 1

def RTL8365MB_TABLE_L2_METHOD_MAC : Nat := 0
def RTL8365MB_TABLE_L2_METHOD_ADDR : Nat := 1
def RTL8365MB_TABLE_L2_METHOD_ADDR_NEXT : Nat := 2
def RTL8365MB_TABLE_L2_METHOD_ADDR_NEXT_UC : Nat := 3
def RTL8365MB_TABLE_L2_METHOD_ADDR_NEXT_MC : Nat := 4
def RTL8365MB_TABLE_L2_METHOD_ADDR_NEXT_UC_PORT : Nat := 7

def RTL8365MB_TABLE_ENTRY_MAX_SIZE : Nat := 10

def RTL8365MB_TABLE_ADDR_MASK : Nat := 0x1FFF
def RTL8365MB_TABLE_STATUS_ADDRESS_EXT_MASK : Nat := 0x4000
def RTL8365MB_TABLE_STATUS_BUSY_FLAG_MASK : Nat := 0x2000
def RTL8365MB_TABLE_STATUS_HIT_STATUS_MASK : Nat := 0x1000
def RTL8365MB_TABLE_STATUS_TYPE_MASK : Nat := 0x0800
def RTL8365MB_TABLE_STATUS_ADDRESS_MASK : Nat := 0x07FF

/-- Chip state: the stored table entries (table address to word index to
16-bit word), the plain register file, and the hardware response to an
L2 table command (the status word read back after completion, and the
read-window contents when the command hits an entry). -/
structure realtek_hw where
  aclRule : Nat → Nat → Nat
  aclAction : Nat → Nat → Nat
  cvlan : Nat → Nat → Nat
  regs : Nat → Nat
  l2Status : Nat
  l2Window : Nat → Nat

/-- A table query descriptor, from struct rtl8365mb_table_query.  The
addr field stands for the addr member of whichever arm of the argument
union the target table selects; method and port are the L2-only
arguments. -/
structure rtl8365mb_table_query_desc where
  table : Nat
  op : Nat
  addr : Nat
  method : Nat := 0
  port : Nat := 0

/-- Look up a stored entry word of one of the directly indexed tables. -/
def realtek_hw.tableRead (hw : realtek_hw) (table addr i : Nat) : Nat :=
  if table = RTL8365MB_TABLE_ACL_RULE then hw.aclRule addr i
  else if table = RTL8365MB_TABLE_ACL_ACTION then hw.aclAction addr i
  else hw.cvlan addr i

/-- Commit the first size words of the write window to the addressed
slot of one of the directly indexed tables. -/
def realtek_hw.tableWrite (hw : realtek_hw) (table addr : Nat)
    (data : Nat → Nat) (size : Nat) : realtek_hw :=
  let entry : Nat → Nat := fun i => if i < size then data i else 0
  if table = RTL8365MB_TABLE_ACL_RULE then
    { hw with aclRule := fun a => if a = addr then entry else hw.aclRule a }
  else if table = RTL8365MB_TABLE_ACL_ACTION then
    { hw with aclAction := fun a => if a = addr then entry else hw.aclAction a }
  else
    { hw with cvlan := fun a => if a = addr then entry else hw.cvlan a }

/-- rtl8365mb_table_query: translate a query into the register
choreography and return (return value, new chip state, data array after
the call, resolved entry address).  Faithful to the source: the size
guard, the table-selector guard, committing the write window on writes,
the address register masking, the L2 status check with its NotFound
error and three-part address reassembly, and the upper-nibble masking of
the last word of a maximum-size entry on reads. -/
def rtl8365mb_table_query (hw : realtek_hw) (q : rtl8365mb_table_query_desc)
    (data : Nat → Nat) (size : Nat) : Int × realtek_hw × (Nat → Nat) × Nat :=
  if size > RTL8365MB_TABLE_ENTRY_MAX_SIZE then (-E2BIG, hw, data, q.addr)
  else if ¬(q.table = RTL8365MB_TABLE_ACL_RULE ∨ q.table = RTL8365MB_TABLE_ACL_ACTION ∨
      q.table = RTL8365MB_TABLE_CVLAN ∨ q.table = RTL8365MB_TABLE_L2) then
    (-EINVAL, hw, data, q.addr)
  else
    -- The target address register only keeps RTL8365MB_TABLE_ADDR_MASK bits.
    let effAddr := FIELD_PREP RTL8365MB_TABLE_ADDR_MASK q.addr
    -- Write entry data (commit the write window) if writing to the table.
    let hw1 := if q.op = RTL8365MB_TABLE_OP_WRITE ∧ q.table ≠ RTL8365MB_TABLE_L2 then
      hw.tableWrite q.table effAddr data size else hw
    if q.table = RTL8365MB_TABLE_L2 then
      -- For both reads and writes to the L2 table, check the status word.
      let hit := FIELD_GET RTL8365MB_TABLE_STATUS_HIT_STATUS_MASK hw.l2Status
      if hit = 0 then (-ENOENT, hw1, data, q.addr)
      else
        let addrOut :=
          FIELD_GET RTL8365MB_TABLE_STATUS_ADDRESS_MASK hw.l2Status |||
          (FIELD_GET RTL8365MB_TABLE_STATUS_ADDRESS_EXT_MASK hw.l2Status <<< 11) |||
          (FIELD_GET RTL8365MB_TABLE_STATUS_TYPE_MASK hw.l2Status <<< 12)
        if q.op = RTL8365MB_TABLE_OP_READ then
          (0, hw1, fun i => if i < size then hw.l2Window i else data i, addrOut)
        else (0, hw1, data, addrOut)
    else
      if q.op = RTL8365MB_TABLE_OP_READ then
        (0, hw1,
          fun i => if i < size then
            (if i = RTL8365MB_TABLE_ENTRY_MAX_SIZE - 1 then
              hw.tableRead q.table effAddr i &&& 0xF
            else hw.tableRead q.table effAddr i)
          else data i, q.addr)
      else (0, hw1, data, q.addr)

/-- Claim C4: for every L2 table query of legal size, if the status
word's hit bit is clear after the command completes the query returns
-ENOENT and leaves the caller's entry data untouched; if the hit bit is
set the query succeeds and the resolved address is reassembled from the
11-bit address field, the 1-bit high-address extension shifted to bit
11, and the 1-bit type field shifted to bit 12 of the status word. -/
theorem c4_l2_query_hit_status (hw : realtek_hw) (q : rtl8365mb_table_query_desc)
    (data : Nat → Nat) (size : Nat)
    (hsize : size ≤ RTL8365MB_TABLE_ENTRY_MAX_SIZE)
    (htbl : q.table = RTL8365MB_TABLE_L2) :
    (FIELD_GET RTL8365MB_TABLE_STATUS_HIT_STATUS_MASK hw.l2Status = 0 →
      (rtl8365mb_table_query hw q data size).1 = -ENOENT ∧
      (rtl8365mb_table_query hw q data size).2.2.1 = data) ∧
    (FIELD_GET RTL8365MB_TABLE_STATUS_HIT_STATUS_MASK hw.l2Status ≠ 0 →
      (rtl8365mb_table_query hw q data size).1 = 0 ∧
      (rtl8365mb_table_query hw q data size).2.2.2 =
        (FIELD_GET RTL8365MB_TABLE_STATUS_ADDRESS_MASK hw.l2Status |||
         (FIELD_GET RTL8365MB_TABLE_STATUS_ADDRESS_EXT_MASK hw.l2Status <<< 11) |||
         (FIELD_GET RTL8365MB_TABLE_STATUS_TYPE_MASK hw.l2Status <<< 12))) := by
  have hns : ¬ size > RTL8365MB_TABLE_ENTRY_MAX_SIZE := by omega
  constructor
  · intro hmiss
    unfold rtl8365mb_table_query
    simp [hns, htbl, hmiss, RTL8365MB_TABLE_L2, RTL8365MB_TABLE_ACL_RULE,
      RTL8365MB_TABLE_ACL_ACTION, RTL8365MB_TABLE_CVLAN]
  · intro hhit
    unfold rtl8365mb_table_query
    rcases eq_or_ne q.op RTL8365MB_TABLE_OP_READ with hop | hop <;>
      simp [hns, htbl, hhit, hop, RTL8365MB_TABLE_L2, RTL8365MB_TABLE_ACL_RULE,
        RTL8365MB_TABLE_ACL_ACTION, RTL8365MB_TABLE_CVLAN]

/-- Witness for c4_l2_query_hit_status: a miss (status 0) yields -ENOENT
with data untouched, and a hit with status word 0x5234 yields success
with resolved address (0x234 OR 1<<<11 OR 0<<<12) = 0xA34. -/
theorem c4_l2_query_hit_status_witness :
    ((rtl8365mb_table_query
        { aclRule := fun _ _ => 0, aclAction := fun _ _ => 0, cvlan := fun _ _ => 0,
          regs := fun _ => 0, l2Status := 0, l2Window := fun _ => 0 }
        { table := 4, op := 0, addr := 3 } (fun _ => 0) 6).1 = -ENOENT) ∧
    ((rtl8365mb_table_query
        { aclRule := fun _ _ => 0, aclAction := fun _ _ => 0, cvlan := fun _ _ => 0,
          regs := fun _ => 0, l2Status := 0x5234, l2Window := fun _ => 0 }
        { table := 4, op := 0, addr := 3 } (fun _ => 0) 6).2.2.2 = 0xA34) := by
  constructor
  · exact ((c4_l2_query_hit_status _ _ (fun _ => 0) 6 (by decide) (by decide)).1
      (by decide)).1
  · have := ((c4_l2_query_hit_status
      { aclRule := fun _ _ => 0, aclAction := fun _ _ => 0, cvlan := fun _ _ => 0,
        regs := fun _ => 0, l2Status := 0x5234, l2Window := fun _ => 0 }
      { table := 4, op := 0, addr := 3 } (fun _ => 0) 6 (by decide) (by decide)).2
      (by decide)).2
    rw [this]; decide

/- Specialized bitfield lemmas for the masks used by the codecs. -/

theorem recombine_at_8 (x : Nat) : (x % 256) ||| ((x >>> 8) <<< 8) = x := by
  simpa using mod_lor_shiftRight_shiftLeft x 8

theorem recombine_at_5 (x : Nat) : (x % 32) ||| ((x >>> 5) <<< 5) = x := by
  simpa using mod_lor_shiftRight_shiftLeft x 5

theorem shiftRight_8_lt_8 (x : Nat) (h : x < 2048) : x >>> 8 < 8 := by
  have : (2048 : Nat) = 2 ^ (8 + 3) := by norm_num
  simpa using shiftRight_lt_of_lt x 8 3 (this ▸ h)

theorem shiftRight_5_lt_2 (x : Nat) (h : x < 64) : x >>> 5 < 2 := by
  have : (64 : Nat) = 2 ^ (5 + 1) := by norm_num
  simpa using shiftRight_lt_of_lt x 5 1 (this ▸ h)

/- 4.5 VLAN codecs, from rtl8365mb_vlan.c. -/

def RTL8365MB_CVLAN_ENTRY_D0_MBR_MASK : Nat := 0x00FF
def RTL8365MB_CVLAN_ENTRY_D0_UNTAG_MASK : Nat := 0xFF00
def RTL8365MB_CVLAN_ENTRY_D1_FID_MASK : Nat := 0x000F
def RTL8365MB_CVLAN_ENTRY_D1_VBPEN_MASK : Nat := 0x0010
def RTL8365MB_CVLAN_ENTRY_D1_VBPRI_MASK : Nat := 0x00E0
def RTL8365MB_CVLAN_ENTRY_D1_ENVLANPOL_MASK : Nat := 0x0100
def RTL8365MB_CVLAN_ENTRY_D1_METERIDX_MASK : Nat := 0x3E00
def RTL8365MB_CVLAN_ENTRY_D1_IVL_SVL_MASK : Nat := 0x4000
def RTL8365MB_CVLAN_ENTRY_D2_MBR_EXT_MASK : Nat := 0x0007
def RTL8365MB_CVLAN_ENTRY_D2_UNTAG_EXT_MASK : Nat := 0x0038
def RTL8365MB_CVLAN_ENTRY_D2_METERIDX_EXT_MASK : Nat := 0x0040

def RTL8365MB_VLAN_MC_BASE : Nat := 0x0728
def RTL8365MB_VLAN_MC_REG (x : Nat) : Nat := RTL8365MB_VLAN_MC_BASE + x * 4
def RTL8365MB_VLAN_MC_D0_MBR_MASK : Nat := 0x07FF
def RTL8365MB_VLAN_MC_D1_FID_MASK : Nat := 0x000F
def RTL8365MB_VLAN_MC_D2_METERIDX_MASK : Nat := 0x07E0
def RTL8365MB_VLAN_MC_D2_ENVLANPOL_MASK : Nat := 0x0010
def RTL8365MB_VLAN_MC_D2_VBPRI_MASK : Nat := 0x000E
def RTL8365MB_VLAN_MC_D2_VBPEN_MASK : Nat := 0x0001
def RTL8365MB_VLAN_MC_D3_EVID_MASK : Nat := 0x1FFF

def RTL8365MB_PRIORITYMAX : Nat := 7
def RTL8365MB_FIDMAX : Nat := 15
def RTL8365MB_METERMAX : Nat := 63

def RTL8365MB_NUM_MEMBERCONFIGS : Nat := 32

/-- struct rtl8365mb_vlan4k.  The C fields fid, priority, priority_en,
policing_en, ivl_en and meteridx are u8 bitfields of widths 4, 3, 1, 1,
1 and 6; here they are Nat values, with the widths appearing as bounds
in the theorems. -/
structure rtl8365mb_vlan4k where
  vid : Nat
  member : Nat
  untag : Nat
  fid : Nat
  priority : Nat
  priority_en : Nat
  policing_en : Nat
  ivl_en : Nat
  meteridx : Nat
  deriving DecidableEq

/-- struct rtl8365mb_vlanmc (same bitfield remark as rtl8365mb_vlan4k). -/
structure rtl8365mb_vlanmc where
  evid : Nat
  member : Nat
  fid : Nat
  priority : Nat
  priority_en : Nat
  policing_en : Nat
  meteridx : Nat
  deriving DecidableEq

/-- rtl8365mb_vlan_set_vlan4k: range-check the entry, pack the 3-word
CVLAN table entry and write it via the table query engine. -/
def rtl8365mb_vlan_set_vlan4k (hw : realtek_hw) (vlan4k : rtl8365mb_vlan4k) :
    Int × realtek_hw :=
  if vlan4k.fid > RTL8365MB_FIDMAX ∨ vlan4k.priority > RTL8365MB_PRIORITYMAX ∨
      vlan4k.meteridx > RTL8365MB_METERMAX then
    (-EINVAL, hw)
  else
    let data : Nat → Nat := fun i =>
      if i = 0 then
        FIELD_PREP RTL8365MB_CVLAN_ENTRY_D0_MBR_MASK vlan4k.member |||
        FIELD_PREP RTL8365MB_CVLAN_ENTRY_D0_UNTAG_MASK vlan4k.untag
      else if i = 1 then
        FIELD_PREP RTL8365MB_CVLAN_ENTRY_D1_FID_MASK vlan4k.fid |||
        FIELD_PREP RTL8365MB_CVLAN_ENTRY_D1_VBPEN_MASK vlan4k.priority_en |||
        FIELD_PREP RTL8365MB_CVLAN_ENTRY_D1_VBPRI_MASK vlan4k.priority |||
        FIELD_PREP RTL8365MB_CVLAN_ENTRY_D1_ENVLANPOL_MASK vlan4k.policing_en |||
        FIELD_PREP RTL8365MB_CVLAN_ENTRY_D1_METERIDX_MASK vlan4k.meteridx |||
        FIELD_PREP RTL8365MB_CVLAN_ENTRY_D1_IVL_SVL_MASK vlan4k.ivl_en
      else if i = 2 then
        FIELD_PREP RTL8365MB_CVLAN_ENTRY_D2_MBR_EXT_MASK (vlan4k.member >>> 8) |||
        FIELD_PREP RTL8365MB_CVLAN_ENTRY_D2_UNTAG_EXT_MASK (vlan4k.untag >>> 8) |||
        FIELD_PREP RTL8365MB_CVLAN_ENTRY_D2_METERIDX_EXT_MASK (vlan4k.meteridx >>> 5)
      else 0
    let q : rtl8365mb_table_query_desc :=
      { table := RTL8365MB_TABLE_CVLAN, op := RTL8365MB_TABLE_OP_WRITE,
        addr := vlan4k.vid }
    let r := rtl8365mb_table_query hw q data 3
    (r.1, r.2.1)

/-- rtl8365mb_vlan_get_vlan4k: read the 3-word CVLAN table entry for the
given vid and unpack it. -/
def rtl8365mb_vlan_get_vlan4k (hw : realtek_hw) (vid : Nat) :
    Int × rtl8365mb_vlan4k :=
  let q : rtl8365mb_table_query_desc :=
    { table := RTL8365MB_TABLE_CVLAN, op := RTL8365MB_TABLE_OP_READ, addr := vid }
  let r := rtl8365mb_table_query hw q (fun _ => 0) 3
  if r.1 ≠ 0 then (r.1, ⟨0, 0, 0, 0, 0, 0, 0, 0, 0⟩)
  else
    let data := r.2.2.1
    (0,
      { vid := vid
        member := FIELD_GET RTL8365MB_CVLAN_ENTRY_D0_MBR_MASK (data 0) |||
          (FIELD_GET RTL8365MB_CVLAN_ENTRY_D2_MBR_EXT_MASK (data 2) <<< 8)
        untag := FIELD_GET RTL8365MB_CVLAN_ENTRY_D0_UNTAG_MASK (data 0) |||
          (FIELD_GET RTL8365MB_CVLAN_ENTRY_D2_UNTAG_EXT_MASK (data 2) <<< 8)
        fid := FIELD_GET RTL8365MB_CVLAN_ENTRY_D1_FID_MASK (data 1)
        priority_en := FIELD_GET RTL8365MB_CVLAN_ENTRY_D1_VBPEN_MASK (data 1)
        priority := FIELD_GET RTL8365MB_CVLAN_ENTRY_D1_VBPRI_MASK (data 1)
        policing_en := FIELD_GET RTL8365MB_CVLAN_ENTRY_D1_ENVLANPOL_MASK (data 1)
        meteridx := FIELD_GET RTL8365MB_CVLAN_ENTRY_D1_METERIDX_MASK (data 1) |||
          (FIELD_GET RTL8365MB_CVLAN_ENTRY_D2_METERIDX_EXT_MASK (data 2) <<< 5)
        ivl_en := FIELD_GET RTL8365MB_CVLAN_ENTRY_D1_IVL_SVL_MASK (data 1) })

/-- rtl8365mb_vlan_set_vlanmc: range-check the membership config, pack
its 4 words and write them to the membership config registers. -/
def rtl8365mb_vlan_set_vlanmc (hw : realtek_hw) (index : Nat)
    (vlanmc : rtl8365mb_vlanmc) : Int × realtek_hw :=
  if index ≥ RTL8365MB_NUM_MEMBERCONFIGS ∨ vlanmc.fid > RTL8365MB_FIDMAX ∨
      vlanmc.priority > RTL8365MB_PRIORITYMAX ∨
      vlanmc.meteridx > RTL8365MB_METERMAX then
    (-EINVAL, hw)
  else
    let data : Nat → Nat := fun i =>
      if i = 0 then FIELD_PREP RTL8365MB_VLAN_MC_D0_MBR_MASK vlanmc.member
      else if i = 1 then FIELD_PREP RTL8365MB_VLAN_MC_D1_FID_MASK vlanmc.fid
      else if i = 2 then
        FIELD_PREP RTL8365MB_VLAN_MC_D2_METERIDX_MASK vlanmc.meteridx |||
        FIELD_PREP RTL8365MB_VLAN_MC_D2_ENVLANPOL_MASK vlanmc.policing_en |||
        FIELD_PREP RTL8365MB_VLAN_MC_D2_VBPRI_MASK vlanmc.priority |||
        FIELD_PREP RTL8365MB_VLAN_MC_D2_VBPEN_MASK vlanmc.priority_en
      else FIELD_PREP RTL8365MB_VLAN_MC_D3_EVID_MASK vlanmc.evid
    let regs4 : Nat → Nat := fun r =>
      if r = RTL8365MB_VLAN_MC_REG index then data 0
      else if r = RTL8365MB_VLAN_MC_REG index + 1 then data 1
      else if r = RTL8365MB_VLAN_MC_REG index + 2 then data 2
      else if r = RTL8365MB_VLAN_MC_REG index + 3 then data 3
      else hw.regs r
    (0, { hw with regs := regs4 })

/-- All-zero chip state, used as the initial state of concrete runs. -/
def hwZero : realtek_hw :=
  { aclRule := fun _ _ => 0, aclAction := fun _ _ => 0, cvlan := fun _ _ => 0,
    regs := fun _ => 0, l2Status := 0, l2Window := fun _ => 0 }

/-- Claim C7: writing a VLAN-4k entry whose fields are within their
hardware widths and reading the same vid back returns an entry equal to
the one written. -/
theorem c7_vlan4k_roundtrip (hw : realtek_hw) (v : rtl8365mb_vlan4k)
    (hmem : v.member < 2048) (huntag : v.untag < 2048) (hfid : v.fid ≤ 15)
    (hpri : v.priority ≤ 7) (hmet : v.meteridx ≤ 63) (hpe : v.priority_en ≤ 1)
    (hpo : v.policing_en ≤ 1) (hivl : v.ivl_en ≤ 1) :
    (rtl8365mb_vlan_set_vlan4k hw v).1 = 0 ∧
    (rtl8365mb_vlan_get_vlan4k (rtl8365mb_vlan_set_vlan4k hw v).2 v.vid).1 = 0 ∧
    (rtl8365mb_vlan_get_vlan4k (rtl8365mb_vlan_set_vlan4k hw v).2 v.vid).2 = v := by
  have hguard : ¬(v.fid > RTL8365MB_FIDMAX ∨ v.priority > RTL8365MB_PRIORITYMAX ∨
      v.meteridx > RTL8365MB_METERMAX) := by
    unfold RTL8365MB_FIDMAX RTL8365MB_PRIORITYMAX RTL8365MB_METERMAX
    omega
  have s_ff : ∀ x : Nat, FIELD_GET 0x00FF (FIELD_PREP 0x00FF x) = x % 256 := fun x => by
    have := FIELD_GET_PREP_self 0x00FF 8 0 x (by decide) (by decide)
    norm_num at this; exact this
  have s_ff00 : ∀ x : Nat, FIELD_GET 0xFF00 (FIELD_PREP 0xFF00 x) = x % 256 := fun x => by
    have := FIELD_GET_PREP_self 0xFF00 8 8 x (by decide) (by decide)
    norm_num at this; exact this
  have s_0f : ∀ x : Nat, FIELD_GET 0x000F (FIELD_PREP 0x000F x) = x % 16 := fun x => by
    have := FIELD_GET_PREP_self 0x000F 4 0 x (by decide) (by decide)
    norm_num at this; exact this
  have s_10 : ∀ x : Nat, FIELD_GET 0x0010 (FIELD_PREP 0x0010 x) = x % 2 := fun x => by
    have := FIELD_GET_PREP_self 0x0010 1 4 x (by decide) (by decide)
    norm_num at this; exact this
  have s_e0 : ∀ x : Nat, FIELD_GET 0x00E0 (FIELD_PREP 0x00E0 x) = x % 8 := fun x => by
    have := FIELD_GET_PREP_self 0x00E0 3 5 x (by decide) (by decide)
    norm_num at this; exact this
  have s_100 : ∀ x : Nat, FIELD_GET 0x0100 (FIELD_PREP 0x0100 x) = x % 2 := fun x => by
    have := FIELD_GET_PREP_self 0x0100 1 8 x (by decide) (by decide)
    norm_num at this; exact this
  have s_3e00 : ∀ x : Nat, FIELD_GET 0x3E00 (FIELD_PREP 0x3E00 x) = x % 32 := fun x => by
    have := FIELD_GET_PREP_self 0x3E00 5 9 x (by decide) (by decide)
    norm_num at this; exact this
  have s_4000 : ∀ x : Nat, FIELD_GET 0x4000 (FIELD_PREP 0x4000 x) = x % 2 := fun x => by
    have := FIELD_GET_PREP_self 0x4000 1 14 x (by decide) (by decide)
    norm_num at this; exact this
  have s_07 : ∀ x : Nat, FIELD_GET 0x0007 (FIELD_PREP 0x0007 x) = x % 8 := fun x => by
    have := FIELD_GET_PREP_self 0x0007 3 0 x (by decide) (by decide)
    norm_num at this; exact this
  have s_38 : ∀ x : Nat, FIELD_GET 0x0038 (FIELD_PREP 0x0038 x) = x % 8 := fun x => by
    have := FIELD_GET_PREP_self 0x0038 3 3 x (by decide) (by decide)
    norm_num at this; exact this
  have s_40 : ∀ x : Nat, FIELD_GET 0x0040 (FIELD_PREP 0x0040 x) = x % 2 := fun x => by
    have := FIELD_GET_PREP_self 0x0040 1 6 x (by decide) (by decide)
    norm_num at this; exact this
  have hm8 : v.member >>> 8 % 8 = v.member >>> 8 :=
    Nat.mod_eq_of_lt (shiftRight_8_lt_8 _ hmem)
  have hu8 : v.untag >>> 8 % 8 = v.untag >>> 8 :=
    Nat.mod_eq_of_lt (shiftRight_8_lt_8 _ huntag)
  have hmt5 : v.meteridx >>> 5 % 2 = v.meteridx >>> 5 :=
    Nat.mod_eq_of_lt (shiftRight_5_lt_2 _ (by omega))
  refine ⟨?_, ?_, ?_⟩
  · simp [rtl8365mb_vlan_set_vlan4k, rtl8365mb_table_query, hguard,
      RTL8365MB_TABLE_ENTRY_MAX_SIZE, RTL8365MB_TABLE_CVLAN, RTL8365MB_TABLE_L2,
      RTL8365MB_TABLE_ACL_RULE, RTL8365MB_TABLE_ACL_ACTION,
      RTL8365MB_TABLE_OP_WRITE, RTL8365MB_TABLE_OP_READ]
  · simp [rtl8365mb_vlan_set_vlan4k, rtl8365mb_vlan_get_vlan4k,
      rtl8365mb_table_query, hguard, realtek_hw.tableWrite, realtek_hw.tableRead,
      RTL8365MB_TABLE_ENTRY_MAX_SIZE, RTL8365MB_TABLE_CVLAN, RTL8365MB_TABLE_L2,
      RTL8365MB_TABLE_ACL_RULE, RTL8365MB_TABLE_ACL_ACTION,
      RTL8365MB_TABLE_OP_WRITE, RTL8365MB_TABLE_OP_READ]
  · have hfid1 : v.fid % 16 = v.fid := Nat.mod_eq_of_lt (by omega)
    have hpri1 : v.priority % 8 = v.priority := Nat.mod_eq_of_lt (by omega)
    have hpe1 : v.priority_en % 2 = v.priority_en := Nat.mod_eq_of_lt (by omega)
    have hpo1 : v.policing_en % 2 = v.policing_en := Nat.mod_eq_of_lt (by omega)
    have hivl1 : v.ivl_en % 2 = v.ivl_en := Nat.mod_eq_of_lt (by omega)
    have hmet1 : v.meteridx % 32 ||| (v.meteridx >>> 5) <<< 5 = v.meteridx :=
      recombine_at_5 v.meteridx
    simp +decide [rtl8365mb_vlan_set_vlan4k, rtl8365mb_vlan_get_vlan4k,
      rtl8365mb_table_query, hguard, realtek_hw.tableWrite, realtek_hw.tableRead,
      RTL8365MB_TABLE_ENTRY_MAX_SIZE, RTL8365MB_TABLE_CVLAN, RTL8365MB_TABLE_L2,
      RTL8365MB_TABLE_ACL_RULE, RTL8365MB_TABLE_ACL_ACTION,
      RTL8365MB_TABLE_OP_WRITE, RTL8365MB_TABLE_OP_READ,
      RTL8365MB_CVLAN_ENTRY_D0_MBR_MASK, RTL8365MB_CVLAN_ENTRY_D0_UNTAG_MASK,
      RTL8365MB_CVLAN_ENTRY_D1_FID_MASK, RTL8365MB_CVLAN_ENTRY_D1_VBPEN_MASK,
      RTL8365MB_CVLAN_ENTRY_D1_VBPRI_MASK, RTL8365MB_CVLAN_ENTRY_D1_ENVLANPOL_MASK,
      RTL8365MB_CVLAN_ENTRY_D1_METERIDX_MASK, RTL8365MB_CVLAN_ENTRY_D1_IVL_SVL_MASK,
      RTL8365MB_CVLAN_ENTRY_D2_MBR_EXT_MASK, RTL8365MB_CVLAN_ENTRY_D2_UNTAG_EXT_MASK,
      RTL8365MB_CVLAN_ENTRY_D2_METERIDX_EXT_MASK,
      FIELD_GET_lor, FIELD_GET_PREP_disjoint,
      s_ff, s_ff00, s_0f, s_10, s_e0, s_100, s_3e00, s_4000, s_07, s_38, s_40,
      hm8, hu8, hmt5, recombine_at_8, hmet1,
      hfid1, hpri1, hpe1, hpo1, hivl1, rtl8365mb_vlan4k.mk.injEq]

/-- Witness for c7_vlan4k_roundtrip at the boundary entry with fid = 15,
priority = 7 and meter index = 63. -/
theorem c7_vlan4k_roundtrip_witness :
    (rtl8365mb_vlan_set_vlan4k hwZero ⟨10, 7, 7, 15, 7, 1, 0, 1, 63⟩).1 = 0 ∧
    (rtl8365mb_vlan_get_vlan4k
      (rtl8365mb_vlan_set_vlan4k hwZero ⟨10, 7, 7, 15, 7, 1, 0, 1, 63⟩).2 10).1 = 0 ∧
    (rtl8365mb_vlan_get_vlan4k
      (rtl8365mb_vlan_set_vlan4k hwZero ⟨10, 7, 7, 15, 7, 1, 0, 1, 63⟩).2 10).2 =
      ⟨10, 7, 7, 15, 7, 1, 0, 1, 63⟩ :=
  c7_vlan4k_roundtrip hwZero ⟨10, 7, 7, 15, 7, 1, 0, 1, 63⟩ (by decide) (by decide)
    (by decide) (by decide) (by decide) (by decide) (by decide) (by decide)

/-- Claim C8: a VLAN-4k entry or a VLAN membership config with an
out-of-range field value (filtering id above 15, priority above 7, or
meter index above 63) is rejected with -EINVAL before any register or
table operation, leaving the chip state unchanged. -/
theorem c8_vlan_out_of_range_fails_fast (hw : realtek_hw)
    (v : rtl8365mb_vlan4k) (m : rtl8365mb_vlanmc) (index : Nat)
    (hv : v.fid > 15 ∨ v.priority > 7 ∨ v.meteridx > 63)
    (hm : m.fid > 15 ∨ m.priority > 7 ∨ m.meteridx > 63) :
    rtl8365mb_vlan_set_vlan4k hw v = (-EINVAL, hw) ∧
    rtl8365mb_vlan_set_vlanmc hw index m = (-EINVAL, hw) := by
  constructor
  · unfold rtl8365mb_vlan_set_vlan4k RTL8365MB_FIDMAX RTL8365MB_PRIORITYMAX
      RTL8365MB_METERMAX
    rw [if_pos (by omega)]
  · unfold rtl8365mb_vlan_set_vlanmc RTL8365MB_FIDMAX RTL8365MB_PRIORITYMAX
      RTL8365MB_METERMAX RTL8365MB_NUM_MEMBERCONFIGS
    rw [if_pos (by omega)]

/-- Witness for c8_vlan_out_of_range_fails_fast with fid = 16 in the
VLAN-4k entry and meter index = 64 in the membership config. -/
theorem c8_vlan_out_of_range_fails_fast_witness :
    rtl8365mb_vlan_set_vlan4k hwZero ⟨1, 0, 0, 16, 0, 0, 0, 0, 0⟩ =
      (-EINVAL, hwZero) ∧
    rtl8365mb_vlan_set_vlanmc hwZero 0 ⟨0, 0, 0, 0, 0, 0, 64⟩ =
      (-EINVAL, hwZero) :=
  c8_vlan_out_of_range_fails_fast hwZero ⟨1, 0, 0, 16, 0, 0, 0, 0, 0⟩
    ⟨0, 0, 0, 0, 0, 0, 64⟩ 0 (by decide) (by decide)

/- 4.5 ACL rule codec, from rtl8365mb_acl.c. -/

def RTL8365MB_ACL_ACTION_CTRL_BASE : Nat := 0x0614
def RTL8365MB_ACL_ACTION_CTRL_EXT_BASE : Nat := 0x06F0

/-- Each register holds the ACL action control for two ACL rules. -/
def RTL8365MB_ACL_ACTION_CTRL_REG (x : Nat) : Nat :=
  if x < 64 then RTL8365MB_ACL_ACTION_CTRL_BASE + (x >>> 1)
  else RTL8365MB_ACL_ACTION_CTRL_EXT_BASE + ((x - 64) >>> 1)

def RTL8365MB_ACL_ACTION_CTRL_OFFSET (x : Nat) : Nat := 8 * (x &&& 1)

def RTL8365MB_ACL_ACTION_CTRL_NEGATE_MASK_BASE : Nat := 0x0040

def RTL8365MB_ACL_ACTION_CTRL_NEGATE_MASK (x : Nat) : Nat :=
  0x0040 <<< RTL8365MB_ACL_ACTION_CTRL_OFFSET x

def RTL8365MB_ACL_RULE_ENTRY_D0_TEMPLATE_MASK : Nat := 0x0007
def RTL8365MB_ACL_RULE_ENTRY_D0_TAGEXIST_MASK : Nat := 0x00F8
def RTL8365MB_ACL_RULE_ENTRY_D0_PORTMASK_MASK : Nat := 0xFF00
def RTL8365MB_ACL_RULE_ENTRY_D9_VALID_MASK : Nat := 0x0001
def RTL8365MB_ACL_RULE_ENTRY_D9_PORTMASK_EXT_MASK : Nat := 0x000E

/-- Table address of one of the two rows of an ACL rule entry:
the care row (data = 0) or the data row (data = 1). -/
def RTL8365MB_ACL_RULE_ENTRY_ADDR (data x : Nat) : Nat :=
  if x < 64 then (data <<< 6) ||| x else (data <<< 5) ||| (x + 64)

def RTL8365MB_ACL_RULE_ENTRY_DATA_ADDR (x : Nat) : Nat :=
  RTL8365MB_ACL_RULE_ENTRY_ADDR 1 x

def RTL8365MB_ACL_RULE_ENTRY_CARE_ADDR (x : Nat) : Nat :=
  RTL8365MB_ACL_RULE_ENTRY_ADDR 0 x

def RTL8365MB_NUM_ACL_CONFIGS : Nat := 96

/-- struct rtl8365mb_acl_rule_part: a port mask and the eight
template-defined u16 fields of the care or data half of a rule. -/
structure rtl8365mb_acl_rule_part where
  portmask : Nat
  fields : Fin 8 → Nat

/-- struct rtl8365mb_acl_rule (enabled and negate are u8 single-bit
bitfields in the C struct). -/
structure rtl8365mb_acl_rule where
  enabled : Bool
  negate : Bool
  template : Nat
  care : rtl8365mb_acl_rule_part
  data : rtl8365mb_acl_rule_part

/- Regmap primitives of the register map (16-bit registers). -/

def realtek_hw.regmap_write (hw : realtek_hw) (reg val : Nat) : realtek_hw :=
  { hw with regs := fun r => if r = reg then val else hw.regs r }

def realtek_hw.regmap_update_bits (hw : realtek_hw) (reg mask val : Nat) :
    realtek_hw :=
  hw.regmap_write reg ((hw.regs reg &&& (0xFFFF ^^^ mask)) ||| (val &&& mask))

/-- rtl8365mb_acl_set_rule_negate: set or clear the per-rule negate bit
in the shared action control register. -/
def rtl8365mb_acl_set_rule_negate (hw : realtek_hw) (ruleidx : Nat)
    (negate : Bool) : Int × realtek_hw :=
  (0, hw.regmap_update_bits (RTL8365MB_ACL_ACTION_CTRL_REG ruleidx)
    (RTL8365MB_ACL_ACTION_CTRL_NEGATE_MASK ruleidx)
    (FIELD_PREP RTL8365MB_ACL_ACTION_CTRL_NEGATE_MASK_BASE
        (if negate then 1 else 0) <<<
      RTL8365MB_ACL_ACTION_CTRL_OFFSET ruleidx))

/-- rtl8365mb_acl_get_rule_negate: read the per-rule negate bit back. -/
def rtl8365mb_acl_get_rule_negate (hw : realtek_hw) (ruleidx : Nat) :
    Int × Bool :=
  (0, decide (FIELD_GET RTL8365MB_ACL_ACTION_CTRL_NEGATE_MASK_BASE
    (hw.regs (RTL8365MB_ACL_ACTION_CTRL_REG ruleidx) >>>
      RTL8365MB_ACL_ACTION_CTRL_OFFSET ruleidx) ≠ 0))

/-- The packed logical care entry of an ACL rule (the care_data array of
rtl8365mb_acl_set_rule just before the care/data transform).  Word 9 is
the second of the two assignments in the source, which overrides the
first and forces the valid bit of the care row to zero. -/
def rtl8365mb_acl_rule_care_packed (rule : rtl8365mb_acl_rule) : Nat → Nat
  | 0 => FIELD_PREP RTL8365MB_ACL_RULE_ENTRY_D0_TEMPLATE_MASK
      RTL8365MB_ACL_RULE_ENTRY_D0_TEMPLATE_MASK |||
    FIELD_PREP RTL8365MB_ACL_RULE_ENTRY_D0_PORTMASK_MASK rule.care.portmask
  | 1 => rule.care.fields 0
  | 2 => rule.care.fields 1
  | 3 => rule.care.fields 2
  | 4 => rule.care.fields 3
  | 5 => rule.care.fields 4
  | 6 => rule.care.fields 5
  | 7 => rule.care.fields 6
  | 8 => rule.care.fields 7
  | 9 => FIELD_PREP RTL8365MB_ACL_RULE_ENTRY_D9_PORTMASK_EXT_MASK
      (rule.care.portmask >>> 8) |||
    FIELD_PREP RTL8365MB_ACL_RULE_ENTRY_D9_VALID_MASK 0
  | _ => 0

/-- The packed logical data entry of an ACL rule (the data_data array of
rtl8365mb_acl_set_rule just before the care/data transform). -/
def rtl8365mb_acl_rule_data_packed (rule : rtl8365mb_acl_rule) : Nat → Nat
  | 0 => FIELD_PREP RTL8365MB_ACL_RULE_ENTRY_D0_TEMPLATE_MASK rule.template |||
    FIELD_PREP RTL8365MB_ACL_RULE_ENTRY_D0_PORTMASK_MASK rule.data.portmask
  | 1 => rule.data.fields 0
  | 2 => rule.data.fields 1
  | 3 => rule.data.fields 2
  | 4 => rule.data.fields 3
  | 5 => rule.data.fields 4
  | 6 => rule.data.fields 5
  | 7 => rule.data.fields 6
  | 8 => rule.data.fields 7
  | 9 => FIELD_PREP RTL8365MB_ACL_RULE_ENTRY_D9_PORTMASK_EXT_MASK
      (rule.data.portmask >>> 8)
  | _ => 0

/-- The transformed care row committed to the table: care AND NOT data,
with the 16-bit complement the C code computes on u16 operands. -/
def rtl8365mb_acl_rule_care_stored (rule : rtl8365mb_acl_rule) : Nat → Nat :=
  fun i => rtl8365mb_acl_rule_care_packed rule i &&&
    (0xFFFF ^^^ rtl8365mb_acl_rule_data_packed rule i)

/-- The transformed data row committed to the table: care AND data, with
the valid (enable) bit OR-ed into word 9 after the transform. -/
def rtl8365mb_acl_rule_data_stored (rule : rtl8365mb_acl_rule) : Nat → Nat :=
  fun i =>
    let t := rtl8365mb_acl_rule_care_packed rule i &&&
      rtl8365mb_acl_rule_data_packed rule i
    if i = 9 then
      t ||| FIELD_PREP RTL8365MB_ACL_RULE_ENTRY_D9_VALID_MASK
        (if rule.enabled then 1 else 0)
    else t

/-- rtl8365mb_acl_set_rule: erase the data row (so the valid bit is
zero), return early for a disabled rule, otherwise set the negate bit,
pack and transform the two rows, and commit care row first, data row
(holding the valid bit) last. -/
def rtl8365mb_acl_set_rule (hw : realtek_hw) (ruleidx : Nat)
    (rule : rtl8365mb_acl_rule) : Int × realtek_hw :=
  let data_addr := RTL8365MB_ACL_RULE_ENTRY_DATA_ADDR ruleidx
  let care_addr := RTL8365MB_ACL_RULE_ENTRY_CARE_ADDR ruleidx
  let r0 := rtl8365mb_table_query hw
    { table := RTL8365MB_TABLE_ACL_RULE, op := RTL8365MB_TABLE_OP_WRITE,
      addr := data_addr } (fun _ => 0) 10
  if r0.1 ≠ 0 then (r0.1, r0.2.1)
  else if rule.enabled = false then (0, r0.2.1)
  else
    let r1 := rtl8365mb_acl_set_rule_negate r0.2.1 ruleidx rule.negate
    if r1.1 ≠ 0 then (r1.1, r1.2)
    else
      let r2 := rtl8365mb_table_query r1.2
        { table := RTL8365MB_TABLE_ACL_RULE, op := RTL8365MB_TABLE_OP_WRITE,
          addr := care_addr } (rtl8365mb_acl_rule_care_stored rule) 10
      if r2.1 ≠ 0 then (r2.1, r2.2.1)
      else
        let r3 := rtl8365mb_table_query r2.2.1
          { table := RTL8365MB_TABLE_ACL_RULE, op := RTL8365MB_TABLE_OP_WRITE,
            addr := data_addr } (rtl8365mb_acl_rule_data_stored rule) 10
        if r3.1 ≠ 0 then (r3.1, r3.2.1) else (0, r3.2.1)

/-- rtl8365mb_acl_get_rule: read the data and care rows, undo the
care/data transform by XOR (the data words are taken verbatim), unpack
the fields, and read the negate bit. -/
def rtl8365mb_acl_get_rule (hw : realtek_hw) (ruleidx : Nat) :
    Int × rtl8365mb_acl_rule :=
  let data_addr := RTL8365MB_ACL_RULE_ENTRY_DATA_ADDR ruleidx
  let care_addr := RTL8365MB_ACL_RULE_ENTRY_CARE_ADDR ruleidx
  let r0 := rtl8365mb_table_query hw
    { table := RTL8365MB_TABLE_ACL_RULE, op := RTL8365MB_TABLE_OP_READ,
      addr := data_addr } (fun _ => 0) 10
  if r0.1 ≠ 0 then (r0.1, ⟨false, false, 0, ⟨0, fun _ => 0⟩, ⟨0, fun _ => 0⟩⟩)
  else
    let data_r := r0.2.2.1
    let r1 := rtl8365mb_table_query hw
      { table := RTL8365MB_TABLE_ACL_RULE, op := RTL8365MB_TABLE_OP_READ,
        addr := care_addr } (fun _ => 0) 10
    if r1.1 ≠ 0 then (r1.1, ⟨false, false, 0, ⟨0, fun _ => 0⟩, ⟨0, fun _ => 0⟩⟩)
    else
      let care_r : Nat → Nat := fun i => r1.2.2.1 i ^^^ data_r i
      (0,
        { enabled := decide (FIELD_GET RTL8365MB_ACL_RULE_ENTRY_D9_VALID_MASK
            (data_r 9) ≠ 0)
          negate := (rtl8365mb_acl_get_rule_negate hw ruleidx).2
          template := FIELD_GET RTL8365MB_ACL_RULE_ENTRY_D0_TEMPLATE_MASK
            (data_r 0)
          care :=
            { portmask :=
                FIELD_GET RTL8365MB_ACL_RULE_ENTRY_D0_PORTMASK_MASK (care_r 0) |||
                FIELD_GET RTL8365MB_ACL_RULE_ENTRY_D9_PORTMASK_EXT_MASK (care_r 9)
              fields := fun i => care_r (i.val + 1) }
          data :=
            { portmask :=
                FIELD_GET RTL8365MB_ACL_RULE_ENTRY_D0_PORTMASK_MASK (data_r 0) |||
                FIELD_GET RTL8365MB_ACL_RULE_ENTRY_D9_PORTMASK_EXT_MASK (data_r 9)
              fields := fun i => data_r (i.val + 1) } })

theorem land_shiftRight (a m s : Nat) : (a >>> s) &&& m = (a &&& (m <<< s)) >>> s := by
  apply Nat.eq_of_testBit_eq
  intro i
  simp only [Nat.testBit_and, Nat.testBit_shiftRight, Nat.testBit_shiftLeft]
  have h : s + i - s = i := by omega
  simp [h]

theorem land_land_zero (a m1 m2 : Nat) (h : m1 &&& m2 = 0) :
    (a &&& m1) &&& m2 = 0 := by
  rw [Nat.and_assoc, h, Nat.and_zero]

/-- Bounds and distinctness of the care and data rows of an ACL rule. -/
theorem acl_rule_entry_addrs (idx : Nat) (h : idx < 96) :
    RTL8365MB_ACL_RULE_ENTRY_DATA_ADDR idx < 8192 ∧
    RTL8365MB_ACL_RULE_ENTRY_CARE_ADDR idx < 8192 ∧
    RTL8365MB_ACL_RULE_ENTRY_CARE_ADDR idx ≠ RTL8365MB_ACL_RULE_ENTRY_DATA_ADDR idx := by
  unfold RTL8365MB_ACL_RULE_ENTRY_DATA_ADDR RTL8365MB_ACL_RULE_ENTRY_CARE_ADDR
    RTL8365MB_ACL_RULE_ENTRY_ADDR
  by_cases h64 : idx < 64
  · simp only [h64, if_pos]
    have hc : (0 <<< 6 : Nat) ||| idx = idx := by simp
    have hb : (1 <<< 6 : Nat) ||| idx < 8192 := by
      have h1 : (1 <<< 6 : Nat) ||| idx < 2 ^ 13 :=
        Nat.or_lt_two_pow (by decide) (by omega)
      simpa using h1
    refine ⟨hb, by rw [hc]; omega, ?_⟩
    rw [hc]
    intro he
    have h1 : ((1 <<< 6 : Nat) ||| idx).testBit 6 = true := by
      rw [Nat.testBit_or]
      simp only [Bool.or_eq_true]
      exact Or.inl (by decide)
    have h2 : idx.testBit 6 = false :=
      Nat.testBit_lt_two_pow (by omega)
    rw [← he, h2] at h1
    exact Bool.false_ne_true h1
  · simp only [h64, if_neg, if_false]
    have hc : (0 <<< 5 : Nat) ||| (idx + 64) = idx + 64 := by simp
    have hb : (1 <<< 5 : Nat) ||| (idx + 64) < 8192 := by
      have h1 : (1 <<< 5 : Nat) ||| (idx + 64) < 2 ^ 13 :=
        Nat.or_lt_two_pow (by decide) (by omega)
      simpa using h1
    refine ⟨hb, by rw [hc]; omega, ?_⟩
    rw [hc]
    intro he
    have h1 : ((1 <<< 5 : Nat) ||| (idx + 64)).testBit 5 = true := by
      rw [Nat.testBit_or]
      simp only [Bool.or_eq_true]
      exact Or.inl (by decide)
    have h2 : (idx + 64).testBit 5 = false := by
      rw [Nat.testBit_to_div_mod]
      simp only [decide_eq_false_iff_not]
      omega
    rw [← he, h2] at h1
    exact Bool.false_ne_true h1

theorem FIELD_PREP_1FFF_small (a : Nat) (h : a < 8192) : FIELD_PREP 0x1FFF a = a := by
  unfold FIELD_PREP
  have hs : bfShf 0x1FFF = 0 := by decide
  rw [hs, Nat.shiftLeft_zero]
  have h13 : (0x1FFF : Nat) = 2 ^ 13 - 1 := by norm_num
  rw [h13, Nat.and_pow_two_sub_one_eq_mod]
  exact Nat.mod_eq_of_lt (by omega)

/-- Setting then reading the per-rule negate bit round-trips, for any
prior contents of the shared action control register. -/
theorem acl_negate_roundtrip (hw : realtek_hw) (idx : Nat) (b : Bool) :
    (rtl8365mb_acl_get_rule_negate
      (rtl8365mb_acl_set_rule_negate hw idx b).2 idx).2 = b := by
  unfold rtl8365mb_acl_get_rule_negate rtl8365mb_acl_set_rule_negate
    realtek_hw.regmap_update_bits realtek_hw.regmap_write
    RTL8365MB_ACL_ACTION_CTRL_NEGATE_MASK RTL8365MB_ACL_ACTION_CTRL_OFFSET
    RTL8365MB_ACL_ACTION_CTRL_NEGATE_MASK_BASE
  have h2 : idx &&& 1 = 0 ∨ idx &&& 1 = 1 := by
    rcases Nat.mod_two_eq_zero_or_one idx with h | h <;>
      simp [Nat.and_one_is_mod, h]
  set old := hw.regs (RTL8365MB_ACL_ACTION_CTRL_REG idx) with hold
  have hz1 : (65471 : Nat) &&& 64 = 0 := by decide
  have hz2 : (49151 : Nat) &&& 16384 = 0 := by decide
  rcases h2 with h | h <;> rw [h] <;> cases b <;>
      simp only [if_pos rfl, Bool.false_eq_true, if_false, if_true] <;>
      simp only [FIELD_GET, FIELD_PREP, land_shiftRight, Nat.and_distrib_right] <;>
      simp +decide [land_land_zero _ _ _ hz1, land_land_zero _ _ _ hz2,
        Nat.and_distrib_right]

theorem FIELD_PREP_lt (M v n : Nat) (h : M < 2 ^ n) : FIELD_PREP M v < 2 ^ n :=
  Nat.lt_of_le_of_lt Nat.and_le_right h

/-- Claim C6: writing an ACL rule with enabled = false clears the
rule's data-entry table slot to all-zero words (so the valid bit is
zero) and returns success, and a subsequent read of the same index
reports the rule as not enabled. -/
theorem c6_disabled_rule_clears_slot (hw : realtek_hw) (idx : Nat)
    (rule : rtl8365mb_acl_rule) (hidx : idx < 96) (hdis : rule.enabled = false) :
    (rtl8365mb_acl_set_rule hw idx rule).1 = 0 ∧
    (∀ i, (rtl8365mb_acl_set_rule hw idx rule).2.aclRule
      (RTL8365MB_ACL_RULE_ENTRY_DATA_ADDR idx) i = 0) ∧
    (rtl8365mb_acl_get_rule (rtl8365mb_acl_set_rule hw idx rule).2 idx).1 = 0 ∧
    (rtl8365mb_acl_get_rule
      (rtl8365mb_acl_set_rule hw idx rule).2 idx).2.enabled = false := by
  obtain ⟨hd, hc, hne⟩ := acl_rule_entry_addrs idx hidx
  have heD := FIELD_PREP_1FFF_small _ hd
  have heC := FIELD_PREP_1FFF_small _ hc
  refine ⟨?_, ?_, ?_, ?_⟩ <;>
    simp [rtl8365mb_acl_set_rule, rtl8365mb_acl_get_rule, rtl8365mb_table_query,
      realtek_hw.tableWrite, realtek_hw.tableRead, hdis, heD, heC, hne,
      RTL8365MB_TABLE_ENTRY_MAX_SIZE, RTL8365MB_TABLE_ACL_RULE,
      RTL8365MB_TABLE_ACL_ACTION, RTL8365MB_TABLE_CVLAN, RTL8365MB_TABLE_L2,
      RTL8365MB_TABLE_OP_WRITE, RTL8365MB_TABLE_OP_READ,
      RTL8365MB_TABLE_ADDR_MASK, FIELD_GET_zero]

/-- Claim C1 (amended): the ACL rule write/read pair round-trips for
enabled rules whose template index is below 8, whose port masks fit in
the 8 bits the decoder actually reassembles, and whose data half is a
bitwise subset of the care half (the hardware format stores care AND
data, so data bits outside the care mask are lost; the decoder also
drops the high port-mask extension bits by omitting a left shift).
Disabled rules do not round-trip at all (only the erase is performed). -/
theorem c1_acl_rule_roundtrip_amended (hw : realtek_hw) (idx : Nat)
    (r : rtl8365mb_acl_rule) (hidx : idx < 96) (hen : r.enabled = true)
    (htm : r.template < 8) (hcpm : r.care.portmask < 256)
    (hsubpm : r.data.portmask &&& r.care.portmask = r.data.portmask)
    (hcf : ∀ i, r.care.fields i < 65536) (hdf : ∀ i, r.data.fields i < 65536)
    (hsub : ∀ i, r.data.fields i &&& r.care.fields i = r.data.fields i) :
    (rtl8365mb_acl_set_rule hw idx r).1 = 0 ∧
    (rtl8365mb_acl_get_rule (rtl8365mb_acl_set_rule hw idx r).2 idx).1 = 0 ∧
    (rtl8365mb_acl_get_rule (rtl8365mb_acl_set_rule hw idx r).2 idx).2 = r := by
  obtain ⟨ren, rneg, rtm, ⟨rcpm, rcf⟩, ⟨rdpm, rdf⟩⟩ := r
  simp only at hen htm hcpm hsubpm hcf hdf hsub
  obtain ⟨hd, hc, hne⟩ := acl_rule_entry_addrs idx hidx
  have heD := FIELD_PREP_1FFF_small _ hd
  have heC := FIELD_PREP_1FFF_small _ hc
  have hdpm : rdpm < 256 := by
    have h1 : rdpm &&& rcpm ≤ rcpm :=
      Nat.and_le_right
    omega
  have hcs : rcpm >>> 8 = 0 := by
    rw [Nat.shiftRight_eq_div_pow]
    norm_num
    omega
  have hds : rdpm >>> 8 = 0 := by
    rw [Nat.shiftRight_eq_div_pow]
    norm_num
    omega
  have hneg1 : ∀ (hw2 : realtek_hw) (n : Bool),
      (rtl8365mb_acl_set_rule_negate hw2 idx n).1 = 0 := fun _ _ => rfl
  have hnegtbl : ∀ (hw2 : realtek_hw) (n : Bool),
      ((rtl8365mb_acl_set_rule_negate hw2 idx n).2).aclRule = hw2.aclRule :=
    fun _ _ => rfl
  have s07 : ∀ x : Nat, FIELD_GET 0x0007 (FIELD_PREP 0x0007 x) = x % 8 := fun x => by
    have h1 := FIELD_GET_PREP_self 0x0007 3 0 x (by decide) (by decide)
    norm_num at h1; exact h1
  have sFF00 : ∀ x : Nat, FIELD_GET 0xFF00 (FIELD_PREP 0xFF00 x) = x % 256 := fun x => by
    have h1 := FIELD_GET_PREP_self 0xFF00 8 8 x (by decide) (by decide)
    norm_num at h1; exact h1
  have pe0 : FIELD_PREP 0x000E 0 = 0 := by decide
  have pv0 : FIELD_PREP 0x0001 0 = 0 := by decide
  have pv1 : FIELD_PREP 0x0001 1 = 1 := by decide
  have g14_1 : FIELD_GET 0x000E 1 = 0 := by decide
  have g1_1 : FIELD_GET 0x0001 1 = 1 := by decide
  have h115 : (1 : Nat) &&& 15 = 1 := by decide
  have htm8 : rtm % 8 = rtm := Nat.mod_eq_of_lt htm
  have hcpm256 : rcpm % 256 = rcpm := Nat.mod_eq_of_lt hcpm
  have hdpm256 : rdpm % 256 = rdpm := Nat.mod_eq_of_lt hdpm
  have h7t : (7 : Nat) &&& rtm = rtm := by
    rw [Nat.and_comm]
    have h7 : (7 : Nat) = 2 ^ 3 - 1 := by norm_num
    rw [h7, Nat.and_pow_two_sub_one_eq_mod]
    exact Nat.mod_eq_of_lt htm
  have hpm : rcpm &&& rdpm = rdpm := by
    rw [Nat.and_comm]; exact hsubpm
  have hrec0 : ((FIELD_PREP 0x0007 0x0007 |||
      FIELD_PREP 0xFF00 rcpm) &&&
      (0xFFFF ^^^ (FIELD_PREP 0x0007 rtm |||
        FIELD_PREP 0xFF00 rdpm))) ^^^
      ((FIELD_PREP 0x0007 0x0007 ||| FIELD_PREP 0xFF00 rcpm) &&&
      (FIELD_PREP 0x0007 rtm ||| FIELD_PREP 0xFF00 rdpm)) =
      FIELD_PREP 0x0007 0x0007 ||| FIELD_PREP 0xFF00 rcpm :=
    care_data_xor_recover _ _
      (Nat.or_lt_two_pow (FIELD_PREP_lt _ _ 16 (by norm_num))
        (FIELD_PREP_lt _ _ 16 (by norm_num)))
      (Nat.or_lt_two_pow (FIELD_PREP_lt _ _ 16 (by norm_num))
        (FIELD_PREP_lt _ _ 16 (by norm_num)))
  have hrecf : ∀ k : Fin 8,
      (rcf k &&& (0xFFFF ^^^ rdf k)) ^^^
        (rcf k &&& rdf k) = rcf k := fun k =>
    care_data_xor_recover _ _ (by have := hcf k; omega) (by have := hdf k; omega)
  have hsub2 : ∀ k : Fin 8,
      rcf k &&& rdf k = rdf k := fun k => by
    rw [Nat.and_comm]; exact hsub k
  have hrecf2 : ∀ k : Fin 8,
      rcf k &&& (65535 ^^^ rdf k) ^^^ rdf k = rcf k := fun k => by
    nth_rewrite 2 [← hsub2 k]
    exact hrecf k
  refine ⟨?_, ?_, ?_⟩
  · simp [rtl8365mb_acl_set_rule, rtl8365mb_table_query, realtek_hw.tableWrite,
      hen, heD, heC, hne, hneg1, hnegtbl,
      RTL8365MB_TABLE_ENTRY_MAX_SIZE, RTL8365MB_TABLE_ACL_RULE,
      RTL8365MB_TABLE_ACL_ACTION, RTL8365MB_TABLE_CVLAN, RTL8365MB_TABLE_L2,
      RTL8365MB_TABLE_OP_WRITE, RTL8365MB_TABLE_OP_READ, RTL8365MB_TABLE_ADDR_MASK]
  · simp [rtl8365mb_acl_set_rule, rtl8365mb_acl_get_rule, rtl8365mb_table_query,
      realtek_hw.tableWrite, realtek_hw.tableRead, hen, heD, heC, hne, hneg1,
      hnegtbl, RTL8365MB_TABLE_ENTRY_MAX_SIZE, RTL8365MB_TABLE_ACL_RULE,
      RTL8365MB_TABLE_ACL_ACTION, RTL8365MB_TABLE_CVLAN, RTL8365MB_TABLE_L2,
      RTL8365MB_TABLE_OP_WRITE, RTL8365MB_TABLE_OP_READ, RTL8365MB_TABLE_ADDR_MASK]
  · simp +decide [rtl8365mb_acl_set_rule, rtl8365mb_acl_get_rule,
      rtl8365mb_table_query, realtek_hw.tableWrite, realtek_hw.tableRead,
      rtl8365mb_acl_rule_care_stored, rtl8365mb_acl_rule_data_stored,
      rtl8365mb_acl_rule_care_packed, rtl8365mb_acl_rule_data_packed,
      RTL8365MB_ACL_RULE_ENTRY_D0_TEMPLATE_MASK,
      RTL8365MB_ACL_RULE_ENTRY_D0_PORTMASK_MASK,
      RTL8365MB_ACL_RULE_ENTRY_D9_VALID_MASK,
      RTL8365MB_ACL_RULE_ENTRY_D9_PORTMASK_EXT_MASK,
      hen, heD, heC, hne, hneg1, hnegtbl, hcs, hds,
      RTL8365MB_TABLE_ENTRY_MAX_SIZE, RTL8365MB_TABLE_ACL_RULE,
      RTL8365MB_TABLE_ACL_ACTION, RTL8365MB_TABLE_CVLAN, RTL8365MB_TABLE_L2,
      RTL8365MB_TABLE_OP_WRITE, RTL8365MB_TABLE_OP_READ, RTL8365MB_TABLE_ADDR_MASK,
      pe0, pv0, pv1, g14_1, g1_1, h115, FIELD_GET_lor, FIELD_GET_land,
      FIELD_GET_PREP_disjoint, s07, sFF00, htm8, hcpm256, hdpm256, h7t, hpm,
      hrec0, hrecf, hsub2, rtl8365mb_acl_rule.mk.injEq,
      rtl8365mb_acl_rule_part.mk.injEq]
    refine ⟨?_, ?_, ?_⟩
    · exact acl_negate_roundtrip _ idx rneg
    · funext i
      fin_cases i <;> simp +decide [hrecf, hrecf2, hsub2]
    · funext i
      fin_cases i <;> simp +decide [hrecf, hrecf2, hsub2]

/-- ACL rule whose data half is not a subset of its care half: the data
port mask requests bit 0 which the care mask does not cover. -/
def aclRuleC1 : rtl8365mb_acl_rule :=
  { enabled := true, negate := false, template := 0,
    care := { portmask := 0, fields := fun _ => 0 },
    data := { portmask := 1, fields := fun _ => 0 } }

/-- Claim C1 is false as stated: for the rule aclRuleC1 (enabled, data
port mask 1, care port mask 0), writing and reading back index 0
succeeds but returns data.portmask = 0 instead of 1, because the
hardware rows store care AND data. -/
theorem c1_acl_rule_roundtrip_refuted :
    (rtl8365mb_acl_set_rule hwZero 0 aclRuleC1).1 = 0 ∧
    (rtl8365mb_acl_get_rule (rtl8365mb_acl_set_rule hwZero 0 aclRuleC1).2 0).1 = 0 ∧
    (rtl8365mb_acl_get_rule
      (rtl8365mb_acl_set_rule hwZero 0 aclRuleC1).2 0).2.data.portmask = 0 ∧
    aclRuleC1.data.portmask = 1 := by
  refine ⟨by decide, by decide, by decide, by decide⟩

/-- An enabled ACL rule satisfying the hypotheses of the amended C1. -/
def aclRuleC1w : rtl8365mb_acl_rule :=
  { enabled := true, negate := true, template := 3,
    care := { portmask := 0xAB, fields := fun _ => 0xFFFF },
    data := { portmask := 0xA0, fields := fun _ => 0x1234 } }

/-- Witness for c1_acl_rule_roundtrip_amended at rule aclRuleC1w. -/
theorem c1_acl_rule_roundtrip_amended_witness :
    (rtl8365mb_acl_set_rule hwZero 5 aclRuleC1w).1 = 0 ∧
    (rtl8365mb_acl_get_rule (rtl8365mb_acl_set_rule hwZero 5 aclRuleC1w).2 5).1 = 0 ∧
    (rtl8365mb_acl_get_rule
      (rtl8365mb_acl_set_rule hwZero 5 aclRuleC1w).2 5).2 = aclRuleC1w :=
  c1_acl_rule_roundtrip_amended hwZero 5 aclRuleC1w (by decide) (by decide)
    (by decide) (by decide) (by decide) (by decide) (by decide) (by decide)

/-- Witness for c6_disabled_rule_clears_slot at an all-zero disabled
rule with nonzero care contents. -/
theorem c6_disabled_rule_clears_slot_witness :
    (rtl8365mb_acl_set_rule hwZero 3
      ⟨false, true, 2, ⟨5, fun _ => 7⟩, ⟨5, fun _ => 7⟩⟩).1 = 0 ∧
    (∀ i, (rtl8365mb_acl_set_rule hwZero 3
      ⟨false, true, 2, ⟨5, fun _ => 7⟩, ⟨5, fun _ => 7⟩⟩).2.aclRule
        (RTL8365MB_ACL_RULE_ENTRY_DATA_ADDR 3) i = 0) ∧
    (rtl8365mb_acl_get_rule (rtl8365mb_acl_set_rule hwZero 3
      ⟨false, true, 2, ⟨5, fun _ => 7⟩, ⟨5, fun _ => 7⟩⟩).2 3).1 = 0 ∧
    (rtl8365mb_acl_get_rule (rtl8365mb_acl_set_rule hwZero 3
      ⟨false, true, 2, ⟨5, fun _ => 7⟩, ⟨5, fun _ => 7⟩⟩).2 3).2.enabled = false :=
  c6_disabled_rule_clears_slot hwZero 3 _ (by decide) (by decide)

/-- Claim C5 (amended): writing an enabled ACL rule stores, for each of
the 10 words, care AND NOT data in the care row; the data row holds
care AND data in words 0 to 8, while word 9 additionally has the valid
bit OR-ed in after the transform (so it is (care AND data) OR 1, not
care AND data).  On read, each logical care field word is recovered as
care_stored XOR data_stored and each data field word is taken verbatim
from the stored data row. -/
theorem c5_care_data_transform (hw : realtek_hw) (idx : Nat)
    (r : rtl8365mb_acl_rule) (hidx : idx < 96) (hen : r.enabled = true) :
    (∀ i, i < 10 →
      (rtl8365mb_acl_set_rule hw idx r).2.aclRule
        (RTL8365MB_ACL_RULE_ENTRY_CARE_ADDR idx) i =
      rtl8365mb_acl_rule_care_packed r i &&&
        (0xFFFF ^^^ rtl8365mb_acl_rule_data_packed r i)) ∧
    (∀ i, i < 9 →
      (rtl8365mb_acl_set_rule hw idx r).2.aclRule
        (RTL8365MB_ACL_RULE_ENTRY_DATA_ADDR idx) i =
      rtl8365mb_acl_rule_care_packed r i &&& rtl8365mb_acl_rule_data_packed r i) ∧
    ((rtl8365mb_acl_set_rule hw idx r).2.aclRule
        (RTL8365MB_ACL_RULE_ENTRY_DATA_ADDR idx) 9 =
      (rtl8365mb_acl_rule_care_packed r 9 &&&
        rtl8365mb_acl_rule_data_packed r 9) ||| 1) ∧
    (∀ (hw2 : realtek_hw) (k : Fin 8),
      (rtl8365mb_acl_get_rule hw2 idx).2.care.fields k =
        hw2.aclRule (RTL8365MB_ACL_RULE_ENTRY_CARE_ADDR idx) (k.val + 1) ^^^
          hw2.aclRule (RTL8365MB_ACL_RULE_ENTRY_DATA_ADDR idx) (k.val + 1) ∧
      (rtl8365mb_acl_get_rule hw2 idx).2.data.fields k =
        hw2.aclRule (RTL8365MB_ACL_RULE_ENTRY_DATA_ADDR idx) (k.val + 1)) := by
  obtain ⟨hd, hc, hne⟩ := acl_rule_entry_addrs idx hidx
  have heD := FIELD_PREP_1FFF_small _ hd
  have heC := FIELD_PREP_1FFF_small _ hc
  have hneg1 : ∀ (hw2 : realtek_hw) (n : Bool),
      (rtl8365mb_acl_set_rule_negate hw2 idx n).1 = 0 := fun _ _ => rfl
  have hnegtbl : ∀ (hw2 : realtek_hw) (n : Bool),
      ((rtl8365mb_acl_set_rule_negate hw2 idx n).2).aclRule = hw2.aclRule :=
    fun _ _ => rfl
  have pv1 : FIELD_PREP 0x0001 1 = 1 := by decide
  refine ⟨?_, ?_, ?_, ?_⟩
  · intro i hi
    simp [rtl8365mb_acl_set_rule, rtl8365mb_table_query, realtek_hw.tableWrite,
      rtl8365mb_acl_rule_care_stored, hen, heD, heC, hne, hneg1, hnegtbl, hi,
      RTL8365MB_TABLE_ENTRY_MAX_SIZE, RTL8365MB_TABLE_ACL_RULE,
      RTL8365MB_TABLE_ACL_ACTION, RTL8365MB_TABLE_CVLAN, RTL8365MB_TABLE_L2,
      RTL8365MB_TABLE_OP_WRITE, RTL8365MB_TABLE_OP_READ, RTL8365MB_TABLE_ADDR_MASK]
  · intro i hi
    have hi10 : i < 10 := by omega
    have hi9 : i ≠ 9 := by omega
    simp [rtl8365mb_acl_set_rule, rtl8365mb_table_query, realtek_hw.tableWrite,
      rtl8365mb_acl_rule_data_stored, hen, heD, heC, hne, hneg1, hnegtbl,
      hi10, hi9, RTL8365MB_TABLE_ENTRY_MAX_SIZE, RTL8365MB_TABLE_ACL_RULE,
      RTL8365MB_TABLE_ACL_ACTION, RTL8365MB_TABLE_CVLAN, RTL8365MB_TABLE_L2,
      RTL8365MB_TABLE_OP_WRITE, RTL8365MB_TABLE_OP_READ, RTL8365MB_TABLE_ADDR_MASK]
  · simp [rtl8365mb_acl_set_rule, rtl8365mb_table_query, realtek_hw.tableWrite,
      rtl8365mb_acl_rule_data_stored, hen, heD, heC, hne, hneg1, hnegtbl, pv1,
      RTL8365MB_TABLE_ENTRY_MAX_SIZE, RTL8365MB_TABLE_ACL_RULE,
      RTL8365MB_TABLE_ACL_ACTION, RTL8365MB_TABLE_CVLAN, RTL8365MB_TABLE_L2,
      RTL8365MB_TABLE_OP_WRITE, RTL8365MB_TABLE_OP_READ,
      RTL8365MB_ACL_RULE_ENTRY_D9_VALID_MASK, RTL8365MB_TABLE_ADDR_MASK]
  · intro hw2 k
    constructor <;>
      · fin_cases k <;>
          simp +decide [rtl8365mb_acl_get_rule, rtl8365mb_table_query,
            realtek_hw.tableRead, heD, heC, hne,
            RTL8365MB_TABLE_ENTRY_MAX_SIZE, RTL8365MB_TABLE_ACL_RULE,
            RTL8365MB_TABLE_ACL_ACTION, RTL8365MB_TABLE_CVLAN, RTL8365MB_TABLE_L2,
            RTL8365MB_TABLE_OP_WRITE, RTL8365MB_TABLE_OP_READ,
            RTL8365MB_TABLE_ADDR_MASK] <;> rfl

/-- All-zero enabled ACL rule used to exhibit the valid bit in the
stored data row. -/
def aclRuleC5 : rtl8365mb_acl_rule :=
  { enabled := true, negate := false, template := 0,
    care := { portmask := 0, fields := fun _ => 0 },
    data := { portmask := 0, fields := fun _ => 0 } }

/-- Claim C5 is false as stated: for the all-zero enabled rule, word 9
of the stored data entry is 1 (the valid bit is OR-ed in after the
transform), while care AND data for word 9 is 0. -/
theorem c5_care_data_transform_refuted :
    (rtl8365mb_acl_set_rule hwZero 0 aclRuleC5).1 = 0 ∧
    (rtl8365mb_acl_set_rule hwZero 0 aclRuleC5).2.aclRule
      (RTL8365MB_ACL_RULE_ENTRY_DATA_ADDR 0) 9 = 1 ∧
    rtl8365mb_acl_rule_care_packed aclRuleC5 9 &&&
      rtl8365mb_acl_rule_data_packed aclRuleC5 9 = 0 := by
  refine ⟨by decide, by decide, by decide⟩

/-- Witness for c5_care_data_transform at rule aclRuleC5, index 0. -/
theorem c5_care_data_transform_witness :
    ((rtl8365mb_acl_set_rule hwZero 0 aclRuleC5).2.aclRule
      (RTL8365MB_ACL_RULE_ENTRY_CARE_ADDR 0) 0 =
      rtl8365mb_acl_rule_care_packed aclRuleC5 0 &&&
        (0xFFFF ^^^ rtl8365mb_acl_rule_data_packed aclRuleC5 0)) ∧
    ((rtl8365mb_acl_set_rule hwZero 0 aclRuleC5).2.aclRule
      (RTL8365MB_ACL_RULE_ENTRY_DATA_ADDR 0) 9 =
      (rtl8365mb_acl_rule_care_packed aclRuleC5 9 &&&
        rtl8365mb_acl_rule_data_packed aclRuleC5 9) ||| 1) :=
  ⟨(c5_care_data_transform hwZero 0 aclRuleC5 (by decide) (by decide)).1 0
      (by decide),
   (c5_care_data_transform hwZero 0 aclRuleC5 (by decide) (by decide)).2.2.1⟩

/- 4.5 Forwarding database (L2) codecs, from rtl8365mb_l2.c. -/

def RTL8365MB_L2_UC_D0_MAC5_MASK : Nat := 0x00FF
def RTL8365MB_L2_UC_D0_MAC4_MASK : Nat := 0xFF00
def RTL8365MB_L2_UC_D1_MAC3_MASK : Nat := 0x00FF
def RTL8365MB_L2_UC_D1_MAC2_MASK : Nat := 0xFF00
def RTL8365MB_L2_UC_D2_MAC1_MASK : Nat := 0x00FF
def RTL8365MB_L2_UC_D2_MAC0_MASK : Nat := 0xFF00
def RTL8365MB_L2_UC_D3_VID_MASK : Nat := 0x0FFF
def RTL8365MB_L2_UC_D3_IVL_MASK : Nat := 0x2000
def RTL8365MB_L2_UC_D3_PORT_EXT_MASK : Nat := 0x8000
def RTL8365MB_L2_UC_D4_EFID_MASK : Nat := 0x0007
def RTL8365MB_L2_UC_D4_FID_MASK : Nat := 0x0078
def RTL8365MB_L2_UC_D4_SA_PRI_MASK : Nat := 0x0080
def RTL8365MB_L2_UC_D4_PORT_MASK : Nat := 0x0700
def RTL8365MB_L2_UC_D4_AGE_MASK : Nat := 0x3800
def RTL8365MB_L2_UC_D4_AUTH_MASK : Nat := 0x4000
def RTL8365MB_L2_UC_D4_SA_BLOCK_MASK : Nat := 0x8000
def RTL8365MB_L2_UC_D5_DA_BLOCK_MASK : Nat := 0x0001
def RTL8365MB_L2_UC_D5_PRIORITY_MASK : Nat := 0x000E
def RTL8365MB_L2_UC_D5_FWD_PRI_MASK : Nat := 0x0010
def RTL8365MB_L2_UC_D5_STATIC_MASK : Nat := 0x0020

def RTL8365MB_L2_MC_MAC5_MASK : Nat := 0x00FF
def RTL8365MB_L2_MC_MAC4_MASK : Nat := 0xFF00
def RTL8365MB_L2_MC_MAC3_MASK : Nat := 0x00FF
def RTL8365MB_L2_MC_MAC2_MASK : Nat := 0xFF00
def RTL8365MB_L2_MC_MAC1_MASK : Nat := 0x00FF
def RTL8365MB_L2_MC_MAC0_MASK : Nat := 0xFF00
def RTL8365MB_L2_MC_VID_MASK : Nat := 0x0FFF
def RTL8365MB_L2_MC_IVL_MASK : Nat := 0x2000
def RTL8365MB_L2_MC_MBR_EXT1_MASK : Nat := 0xC000
def RTL8365MB_L2_MC_MBR_MASK : Nat := 0x00FF
def RTL8365MB_L2_MC_IGMPIDX_MASK : Nat := 0xFF00
def RTL8365MB_L2_MC_IGMP_ASIC_MASK : Nat := 0x0001
def RTL8365MB_L2_MC_PRIORITY_MASK : Nat := 0x000E
def RTL8365MB_L2_MC_FWD_PRI_MASK : Nat := 0x0010
def RTL8365MB_L2_MC_STATIC_MASK : Nat := 0x0020
def RTL8365MB_L2_MC_MBR_EXT2_MASK : Nat := 0x0080

/-- is_multicast_ether_addr from linux/etherdevice.h: the low bit of
the first address octet. -/
def is_multicast_ether_addr (mac_addr : Fin 6 → Nat) : Bool :=
  decide (0x01 &&& mac_addr 0 ≠ 0)

structure rtl8365mb_l2_uc_key where
  mac_addr : Fin 6 → Nat
  efid : Nat
  ivl : Bool
  vid : Nat
  fid : Nat

structure rtl8365mb_l2_uc where
  key : rtl8365mb_l2_uc_key
  port : Nat
  age : Nat
  priority : Nat
  sa_block : Bool
  da_block : Bool
  auth : Bool
  is_static : Bool
  sa_pri : Bool
  fwd_pri : Bool

/-- The vid field stands for the vid/fid union of the C key. -/
structure rtl8365mb_l2_mc_key where
  mac_addr : Fin 6 → Nat
  ivl : Bool
  vid : Nat

structure rtl8365mb_l2_mc where
  key : rtl8365mb_l2_mc_key
  member : Nat
  priority : Nat
  igmpidx : Nat
  is_static : Bool
  fwd_pri : Bool
  igmp_asic : Bool

/-- rtl8365mb_l2_data_to_uc: unpack a 6-word entry into a unicast
entry. -/
def rtl8365mb_l2_data_to_uc (data : Nat → Nat) : rtl8365mb_l2_uc :=
  { key :=
      { mac_addr := fun i =>
          match i with
          | 5 => FIELD_GET RTL8365MB_L2_UC_D0_MAC5_MASK (data 0)
          | 4 => FIELD_GET RTL8365MB_L2_UC_D0_MAC4_MASK (data 0)
          | 3 => FIELD_GET RTL8365MB_L2_UC_D1_MAC3_MASK (data 1)
          | 2 => FIELD_GET RTL8365MB_L2_UC_D1_MAC2_MASK (data 1)
          | 1 => FIELD_GET RTL8365MB_L2_UC_D2_MAC1_MASK (data 2)
          | 0 => FIELD_GET RTL8365MB_L2_UC_D2_MAC0_MASK (data 2)
        efid := FIELD_GET RTL8365MB_L2_UC_D4_EFID_MASK (data 4)
        ivl := decide (FIELD_GET RTL8365MB_L2_UC_D3_IVL_MASK (data 3) ≠ 0)
        vid := FIELD_GET RTL8365MB_L2_UC_D3_VID_MASK (data 3)
        fid := FIELD_GET RTL8365MB_L2_UC_D4_FID_MASK (data 4) }
    age := FIELD_GET RTL8365MB_L2_UC_D4_AGE_MASK (data 4)
    auth := decide (FIELD_GET RTL8365MB_L2_UC_D4_AUTH_MASK (data 4) ≠ 0)
    port := FIELD_GET RTL8365MB_L2_UC_D4_PORT_MASK (data 4) |||
      (FIELD_GET RTL8365MB_L2_UC_D3_PORT_EXT_MASK (data 3) <<< 3)
    sa_pri := decide (FIELD_GET RTL8365MB_L2_UC_D4_SA_PRI_MASK (data 4) ≠ 0)
    fwd_pri := decide (FIELD_GET RTL8365MB_L2_UC_D5_FWD_PRI_MASK (data 5) ≠ 0)
    sa_block := decide (FIELD_GET RTL8365MB_L2_UC_D4_SA_BLOCK_MASK (data 4) ≠ 0)
    da_block := decide (FIELD_GET RTL8365MB_L2_UC_D5_DA_BLOCK_MASK (data 5) ≠ 0)
    priority := FIELD_GET RTL8365MB_L2_UC_D5_PRIORITY_MASK (data 5)
    is_static := decide (FIELD_GET RTL8365MB_L2_UC_D5_STATIC_MASK (data 5) ≠ 0) }

/-- rtl8365mb_l2_data_to_mc: unpack a 6-word entry into a multicast
entry. -/
def rtl8365mb_l2_data_to_mc (data : Nat → Nat) : rtl8365mb_l2_mc :=
  { key :=
      { mac_addr := fun i =>
          match i with
          | 5 => FIELD_GET RTL8365MB_L2_MC_MAC5_MASK (data 0)
          | 4 => FIELD_GET RTL8365MB_L2_MC_MAC4_MASK (data 0)
          | 3 => FIELD_GET RTL8365MB_L2_MC_MAC3_MASK (data 1)
          | 2 => FIELD_GET RTL8365MB_L2_MC_MAC2_MASK (data 1)
          | 1 => FIELD_GET RTL8365MB_L2_MC_MAC1_MASK (data 2)
          | 0 => FIELD_GET RTL8365MB_L2_MC_MAC0_MASK (data 2)
        vid := FIELD_GET RTL8365MB_L2_MC_VID_MASK (data 3)
        ivl := decide (FIELD_GET RTL8365MB_L2_MC_IVL_MASK (data 3) ≠ 0) }
    priority := FIELD_GET RTL8365MB_L2_MC_PRIORITY_MASK (data 5)
    fwd_pri := decide (FIELD_GET RTL8365MB_L2_MC_FWD_PRI_MASK (data 5) ≠ 0)
    is_static := decide (FIELD_GET RTL8365MB_L2_MC_STATIC_MASK (data 5) ≠ 0)
    member := FIELD_GET RTL8365MB_L2_MC_MBR_MASK (data 4) |||
      (FIELD_GET RTL8365MB_L2_MC_MBR_EXT1_MASK (data 3) <<< 8) |||
      (FIELD_GET RTL8365MB_L2_MC_MBR_EXT2_MASK (data 5) <<< 8)
    igmpidx := FIELD_GET RTL8365MB_L2_MC_IGMPIDX_MASK (data 4)
    igmp_asic := decide (FIELD_GET RTL8365MB_L2_MC_IGMP_ASIC_MASK (data 5) ≠ 0) }

/-- rtl8365mb_l2_mc_to_data: pack a multicast entry into 6 words.  Note
that the static bit of word 5 is hard-coded to 1, regardless of the
entry's is_static flag. -/
def rtl8365mb_l2_mc_to_data (mc : rtl8365mb_l2_mc) : Nat → Nat
  | 0 => FIELD_PREP RTL8365MB_L2_MC_MAC5_MASK (mc.key.mac_addr 5) |||
    FIELD_PREP RTL8365MB_L2_MC_MAC4_MASK (mc.key.mac_addr 4)
  | 1 => FIELD_PREP RTL8365MB_L2_MC_MAC3_MASK (mc.key.mac_addr 3) |||
    FIELD_PREP RTL8365MB_L2_MC_MAC2_MASK (mc.key.mac_addr 2)
  | 2 => FIELD_PREP RTL8365MB_L2_MC_MAC1_MASK (mc.key.mac_addr 1) |||
    FIELD_PREP RTL8365MB_L2_MC_MAC0_MASK (mc.key.mac_addr 0)
  | 3 => FIELD_PREP RTL8365MB_L2_MC_VID_MASK mc.key.vid |||
    FIELD_PREP RTL8365MB_L2_MC_IVL_MASK (if mc.key.ivl then 1 else 0) |||
    FIELD_PREP RTL8365MB_L2_MC_MBR_EXT1_MASK (mc.member >>> 8)
  | 4 => FIELD_PREP RTL8365MB_L2_MC_MBR_MASK mc.member |||
    FIELD_PREP RTL8365MB_L2_MC_IGMPIDX_MASK mc.igmpidx
  | 5 => FIELD_PREP RTL8365MB_L2_MC_IGMP_ASIC_MASK (if mc.igmp_asic then 1 else 0) |||
    FIELD_PREP RTL8365MB_L2_MC_PRIORITY_MASK mc.priority |||
    FIELD_PREP RTL8365MB_L2_MC_FWD_PRI_MASK (if mc.fwd_pri then 1 else 0) |||
    FIELD_PREP RTL8365MB_L2_MC_STATIC_MASK 1 |||
    FIELD_PREP RTL8365MB_L2_MC_MBR_EXT2_MASK (mc.member >>> 10)
  | _ => 0

/-- rtl8365mb_l2_get_uc_by_addr: look up an L2 entry by table address,
opportunistically decode it as unicast, and report -EINVAL if the entry
found is in fact multicast. -/
def rtl8365mb_l2_get_uc_by_addr (hw : realtek_hw) (addr : Nat) :
    Int × rtl8365mb_l2_uc :=
  let r := rtl8365mb_table_query hw
    { table := RTL8365MB_TABLE_L2, op := RTL8365MB_TABLE_OP_READ,
      method := RTL8365MB_TABLE_L2_METHOD_ADDR, addr := addr } (fun _ => 0) 6
  if r.1 ≠ 0 then
    (r.1, rtl8365mb_l2_data_to_uc (fun _ => 0))
  else
    let uc := rtl8365mb_l2_data_to_uc r.2.2.1
    if is_multicast_ether_addr uc.key.mac_addr then (-EINVAL, uc)
    else (0, uc)

/-- rtl8365mb_l2_get_mc_by_addr: look up an L2 entry by table address,
opportunistically decode it as multicast, and report -EINVAL if the
entry found is not multicast. -/
def rtl8365mb_l2_get_mc_by_addr (hw : realtek_hw) (addr : Nat) :
    Int × rtl8365mb_l2_mc :=
  let r := rtl8365mb_table_query hw
    { table := RTL8365MB_TABLE_L2, op := RTL8365MB_TABLE_OP_READ,
      method := RTL8365MB_TABLE_L2_METHOD_ADDR, addr := addr } (fun _ => 0) 6
  if r.1 ≠ 0 then
    (r.1, rtl8365mb_l2_data_to_mc (fun _ => 0))
  else
    let mc := rtl8365mb_l2_data_to_mc r.2.2.1
    if ¬ is_multicast_ether_addr mc.key.mac_addr then (-EINVAL, mc)
    else (0, mc)

/-- Claim C9: the multicast encoder sets the static bit of word 5 to 1
regardless of the entry's is_static flag, so decoding an entry just
encoded always yields is_static = true, even when the input had
is_static = false. -/
theorem c9_mc_encode_forces_static (mc : rtl8365mb_l2_mc) :
    FIELD_GET RTL8365MB_L2_MC_STATIC_MASK (rtl8365mb_l2_mc_to_data mc 5) = 1 ∧
    (rtl8365mb_l2_data_to_mc (rtl8365mb_l2_mc_to_data mc)).is_static = true := by
  have s20 : ∀ x : Nat, FIELD_GET 0x0020 (FIELD_PREP 0x0020 x) = x % 2 := fun x => by
    have h1 := FIELD_GET_PREP_self 0x0020 1 5 x (by decide) (by decide)
    norm_num at h1; exact h1
  have h5 : FIELD_GET RTL8365MB_L2_MC_STATIC_MASK (rtl8365mb_l2_mc_to_data mc 5) = 1 := by
    simp +decide [rtl8365mb_l2_mc_to_data, RTL8365MB_L2_MC_STATIC_MASK,
      RTL8365MB_L2_MC_IGMP_ASIC_MASK, RTL8365MB_L2_MC_PRIORITY_MASK,
      RTL8365MB_L2_MC_FWD_PRI_MASK, RTL8365MB_L2_MC_MBR_EXT2_MASK,
      FIELD_GET_lor, FIELD_GET_PREP_disjoint, s20]
  exact ⟨h5, by simp [rtl8365mb_l2_data_to_mc, h5]⟩

/-- Claim C10: when an L2 lookup by address succeeds (hit bit set) but
the entry found has a multicast MAC address, rtl8365mb_l2_get_uc_by_addr
returns -EINVAL; symmetrically, rtl8365mb_l2_get_mc_by_addr returns
-EINVAL when the entry found is not multicast. -/
theorem c10_l2_get_by_addr_type_check (hw : realtek_hw) (addr : Nat)
    (hhit : FIELD_GET RTL8365MB_TABLE_STATUS_HIT_STATUS_MASK hw.l2Status ≠ 0) :
    (0x01 &&& FIELD_GET RTL8365MB_L2_UC_D2_MAC0_MASK (hw.l2Window 2) ≠ 0 →
      (rtl8365mb_l2_get_uc_by_addr hw addr).1 = -EINVAL) ∧
    (0x01 &&& FIELD_GET RTL8365MB_L2_MC_MAC0_MASK (hw.l2Window 2) = 0 →
      (rtl8365mb_l2_get_mc_by_addr hw addr).1 = -EINVAL) := by
  constructor
  · intro hmc
    have hmc2 : FIELD_GET RTL8365MB_L2_UC_D2_MAC0_MASK (hw.l2Window 2) % 2 = 1 := by
      rw [Nat.one_and_eq_mod_two] at hmc
      omega
    simp [rtl8365mb_l2_get_uc_by_addr, rtl8365mb_table_query,
      rtl8365mb_l2_data_to_uc, is_multicast_ether_addr, hhit, hmc2,
      RTL8365MB_TABLE_ENTRY_MAX_SIZE, RTL8365MB_TABLE_ACL_RULE,
      RTL8365MB_TABLE_ACL_ACTION, RTL8365MB_TABLE_CVLAN, RTL8365MB_TABLE_L2,
      RTL8365MB_TABLE_OP_WRITE, RTL8365MB_TABLE_OP_READ]
  · intro huc
    have huc2 : ¬ FIELD_GET RTL8365MB_L2_MC_MAC0_MASK (hw.l2Window 2) % 2 = 1 := by
      rw [Nat.one_and_eq_mod_two] at huc
      omega
    simp [rtl8365mb_l2_get_mc_by_addr, rtl8365mb_table_query,
      rtl8365mb_l2_data_to_mc, is_multicast_ether_addr, hhit, huc2,
      RTL8365MB_TABLE_ENTRY_MAX_SIZE, RTL8365MB_TABLE_ACL_RULE,
      RTL8365MB_TABLE_ACL_ACTION, RTL8365MB_TABLE_CVLAN, RTL8365MB_TABLE_L2,
      RTL8365MB_TABLE_OP_WRITE, RTL8365MB_TABLE_OP_READ]

/-- Chip state whose L2 lookup hits an entry with a multicast MAC
address (first octet 0x01). -/
def hwL2Mc : realtek_hw :=
  { hwZero with l2Status := 0x1000, l2Window := fun i => if i = 2 then 0x0100 else 0 }

/-- Chip state whose L2 lookup hits an entry with a unicast MAC address
(first octet 0x02). -/
def hwL2Uc : realtek_hw :=
  { hwZero with l2Status := 0x1000, l2Window := fun i => if i = 2 then 0x0200 else 0 }

/-- Witness for c10_l2_get_by_addr_type_check: a multicast entry makes
the unicast getter fail with -EINVAL, and a unicast entry makes the
multicast getter fail with -EINVAL. -/
theorem c10_l2_get_by_addr_type_check_witness :
    (rtl8365mb_l2_get_uc_by_addr hwL2Mc 0).1 = -EINVAL ∧
    (rtl8365mb_l2_get_mc_by_addr hwL2Uc 0).1 = -EINVAL :=
  ⟨(c10_l2_get_by_addr_type_check hwL2Mc 0 (by decide)).1 (by decide),
   (c10_l2_get_by_addr_type_check hwL2Uc 0 (by decide)).2 (by decide)⟩
